import Mathlib

/-!
# Tana API helper (`api/tana.go`)

A shallow embedding of the Tana "add node" client and the properties of its
request construction, response handling and error paths.

Conventions of the embedding:

* Go strings and byte slices holding text are Lean `String`s.
* A Go slice is the `List` of its visible elements; a `nil` slice and an empty
  slice are both `[]`. The one exception is the `fields` argument of
  `createFieldDefinitions`, which the function changes in place: its tag slices
  are windows on backing arrays held in a `Memory`.
* A Go `(value, error)` return is a pair whose second component is an
  `Option GoError`, `none` standing for a `nil` error.
* A function that can hit a run-time panic returns an `Outcome`.
* The process's surroundings (the JSON encoder, `net/http`) are a `World` that is
  passed through every call.
-/

namespace Tana

/-! ## Package-level variables and constants -/

def endpoint : String := "https://europe-west1-tagr-prod.cloudfunctions.net/addToNodeV2"

def schemaNodeId : String := "SCHEMA"

def coreTemplateId : String := "SYS_T01"

def attrDefTemplateId : String := "SYS_T02"

/-! ## Data model -/

structure TanaAPIHelper where
  Token : String
  Endpoint : String
  deriving DecidableEq, Repr

structure SuperTag where
  ID : String
  deriving DecidableEq, Repr

structure APIPlainNode where
  Name : String
  Description : String
  Supertags : List SuperTag
  deriving DecidableEq, Repr

structure APINode where
  Name : String
  Description : String
  Supertags : List SuperTag
  deriving DecidableEq, Repr

structure APIField where
  Name : String
  Description : String
  deriving DecidableEq, Repr

structure TanaNode where
  Name : String
  Description : String
  NodeID : String
  deriving DecidableEq, Repr

/-- The zero value `TanaNode{}`. -/
def TanaNode.zero : TanaNode := ⟨"", "", ""⟩

/-! ## Errors and outcomes -/

/-- The Go types a JSON value is decoded into here. -/
inductive GoType where
  | string
  | tanaNode
  | tanaNodeSlice
  | envelope
  deriving DecidableEq, Repr

/-- Error values that reach the caller. Each constructor names where the error
is built; `errorf msg` is the value of `fmt.Errorf` whose `Error()` text is
`msg`, and `unmarshalType value target` is a `*json.UnmarshalTypeError` for a
JSON value of kind `value` met where a `target` is expected. -/
inductive GoError where
  | marshal (msg : String)
  | newRequest (msg : String)
  | transport (msg : String)
  | syntaxError
  | unmarshalType (value : String) (target : GoType)
  | errorf (msg : String)
  deriving DecidableEq, Repr

/-- Run-time panics. -/
inductive Panic where
  | indexOutOfRange (index : Nat) (length : Nat)
  deriving DecidableEq, Repr

/-- Result of a call that either returns a Go `(value, error)` pair or panics. -/
inductive Outcome (α : Type) where
  | ret (val : α) (err : Option GoError)
  | panic (p : Panic)
  deriving DecidableEq, Repr

/-! ## JSON values and the text scanner (`encoding/json`) -/

inductive Json where
  | null
  | bool (b : Bool)
  | num (lit : String)
  | str (s : String)
  | arr (elems : List Json)
  | obj (members : List (String × Json))

def maxNestingDepth : Nat := 10000

def isSpace (c : Char) : Bool :=
  c = ' ' || c = '\t' || c = '\r' || c = '\n'

def skipSpace : List Char → List Char
  | [] => []
  | c :: cs => if isSpace c then skipSpace cs else c :: cs

/-- An ASCII decimal digit. -/
def isDigit (c : Char) : Bool := decide (48 ≤ c.toNat ∧ c.toNat ≤ 57)

/-- The value of a hexadecimal digit, in either case. -/
def hexVal (c : Char) : Option Nat :=
  let n := c.toNat
  if 48 ≤ n ∧ n ≤ 57 then some (n - 48)
  else if 97 ≤ n ∧ n ≤ 102 then some (n - 87)
  else if 65 ≤ n ∧ n ≤ 70 then some (n - 55)
  else none

/-- Reads the four hex digits of a `\u` escape (`getu4`, after the `\u`). -/
def getu4 : List Char → Option (Nat × List Char)
  | a :: b :: c :: d :: rest =>
    match hexVal a, hexVal b, hexVal c, hexVal d with
    | some x, some y, some z, some w => some (((x * 16 + y) * 16 + z) * 16 + w, rest)
    | _, _, _, _ => none
  | _ => none

def replacementChar : Char := Char.ofNat 0xFFFD

def isSurrogate (r : Nat) : Bool := 0xD800 ≤ r && r < 0xE000

/-- Combines a UTF-16 surrogate pair (`utf16.DecodeRune`); `none` when the two
units do not form a pair. -/
def decodeSurrogates (r1 r2 : Nat) : Option Char :=
  if 0xD800 ≤ r1 && r1 < 0xDC00 && 0xDC00 ≤ r2 && r2 < 0xE000 then
    some (Char.ofNat ((r1 - 0xD800) * 0x400 + (r2 - 0xDC00) + 0x10000))
  else none

/-- Scans and unquotes the rest of a string literal, the opening quote already
consumed; `acc` holds the characters read so far, in reverse. -/
def scanString : Nat → List Char → List Char → Option (String × List Char)
  | 0, _, _ => none
  | _ + 1, [], _ => none
  | fuel + 1, c :: cs, acc =>
    if c = '"' then some (String.mk acc.reverse, cs)
    else if c = '\\' then
      match cs with
      | [] => none
      | e :: rest =>
        if e = '"' then scanString fuel rest ('"' :: acc)
        else if e = '\\' then scanString fuel rest ('\\' :: acc)
        else if e = '/' then scanString fuel rest ('/' :: acc)
        else if e = 'b' then scanString fuel rest (Char.ofNat 8 :: acc)
        else if e = 'f' then scanString fuel rest (Char.ofNat 12 :: acc)
        else if e = 'n' then scanString fuel rest ('\n' :: acc)
        else if e = 'r' then scanString fuel rest ('\r' :: acc)
        else if e = 't' then scanString fuel rest ('\t' :: acc)
        else if e = 'u' then
          match getu4 rest with
          | none => none
          | some (r1, rest1) =>
            if isSurrogate r1 then
              match rest1 with
              | '\\' :: 'u' :: rest2 =>
                match getu4 rest2 with
                | none => none
                | some (r2, rest3) =>
                  match decodeSurrogates r1 r2 with
                  | some ch => scanString fuel rest3 (ch :: acc)
                  | none => scanString fuel rest1 (replacementChar :: acc)
              | _ => scanString fuel rest1 (replacementChar :: acc)
            else scanString fuel rest1 (Char.ofNat r1 :: acc)
        else none
    else if c.toNat < 0x20 then none
    else scanString fuel cs (c :: acc)

def takeDigits : List Char → List Char × List Char
  | [] => ([], [])
  | c :: cs =>
    if isDigit c then
      let r := takeDigits cs
      (c :: r.1, r.2)
    else ([], c :: cs)

/-- Scans the integer part of a number: `0`, or a non-zero digit followed by
digits. -/
def scanInt : List Char → Option (List Char × List Char)
  | [] => none
  | c :: cs =>
    if c = '0' then some (['0'], cs)
    else if isDigit c then
      let r := takeDigits cs
      some (c :: r.1, r.2)
    else none

def scanFrac : List Char → Option (List Char × List Char)
  | '.' :: cs =>
    match takeDigits cs with
    | ([], _) => none
    | (ds, rest) => some ('.' :: ds, rest)
  | cs => some ([], cs)

def scanExp : List Char → Option (List Char × List Char)
  | [] => some ([], [])
  | c :: cs =>
    if c = 'e' || c = 'E' then
      let signed : List Char × List Char :=
        match cs with
        | s :: cs1 => if s = '+' || s = '-' then ([s], cs1) else ([], cs)
        | [] => ([], [])
      match takeDigits signed.2 with
      | ([], _) => none
      | (ds, rest) => some (c :: (signed.1 ++ ds), rest)
    else some ([], c :: cs)

def scanNumber (cs : List Char) : Option (String × List Char) :=
  let neg : List Char × List Char :=
    match cs with
    | '-' :: cs1 => (['-'], cs1)
    | _ => ([], cs)
  match scanInt neg.2 with
  | none => none
  | some (i, r1) =>
    match scanFrac r1 with
    | none => none
    | some (f, r2) =>
      match scanExp r2 with
      | none => none
      | some (e, r3) => some (String.mk (neg.1 ++ i ++ f ++ e), r3)

/-- Elements of an array after the first one: each round expects `,` value or
the closing `]`. `value` scans one value. -/
def scanElems (value : List Char → Option (Json × List Char)) :
    Nat → List Char → List Json → Option (List Json × List Char)
  | 0, _, _ => none
  | fuel + 1, cs, acc =>
    match skipSpace cs with
    | ']' :: rest => some (acc.reverse, rest)
    | ',' :: rest =>
      match value (skipSpace rest) with
      | none => none
      | some (v, rest1) => scanElems value fuel rest1 (v :: acc)
    | _ => none

/-- One `"key" : value` member, leading space already skipped; `n` bounds the
length of the key. -/
def scanMember (value : List Char → Option (Json × List Char)) (n : Nat)
    (cs : List Char) : Option ((String × Json) × List Char) :=
  match cs with
  | '"' :: rest =>
    match scanString n rest [] with
    | none => none
    | some (k, rest1) =>
      match skipSpace rest1 with
      | ':' :: rest2 =>
        match value (skipSpace rest2) with
        | none => none
        | some (v, rest3) => some ((k, v), rest3)
      | _ => none
  | _ => none

/-- Members of an object after the first one: each round expects `,` member or
the closing `}`. -/
def scanMembers (value : List Char → Option (Json × List Char)) (n : Nat) :
    Nat → List Char → List (String × Json) → Option (List (String × Json) × List Char)
  | 0, _, _ => none
  | fuel + 1, cs, acc =>
    match skipSpace cs with
    | '}' :: rest => some (acc.reverse, rest)
    | ',' :: rest =>
      match scanMember value n (skipSpace rest) with
      | none => none
      | some (m, rest1) => scanMembers value n fuel rest1 (m :: acc)
    | _ => none

def matchLit (lit : List Char) (cs : List Char) : Option (List Char) :=
  if lit.isPrefixOf cs then some (cs.drop lit.length) else none

/-- Scans one JSON value, leading space already skipped; `depth` counts the
enclosing arrays and objects. `n` bounds the length of the text and so the
number of rounds of every inner loop; the first argument bounds the nesting. -/
def scanValue (n : Nat) : Nat → Nat → List Char → Option (Json × List Char)
  | 0, _, _ => none
  | _ + 1, _, [] => none
  | fuel + 1, depth, c :: cs =>
    if c = '{' then
      if depth + 1 > maxNestingDepth then none
      else
        match skipSpace cs with
        | '}' :: rest => some (Json.obj [], rest)
        | cs1 =>
          match scanMember (scanValue n fuel (depth + 1)) n cs1 with
          | none => none
          | some (m, rest) =>
            match scanMembers (scanValue n fuel (depth + 1)) n n rest [m] with
            | none => none
            | some (ms, rest1) => some (Json.obj ms, rest1)
    else if c = '[' then
      if depth + 1 > maxNestingDepth then none
      else
        match skipSpace cs with
        | ']' :: rest => some (Json.arr [], rest)
        | cs1 =>
          match scanValue n fuel (depth + 1) cs1 with
          | none => none
          | some (v, rest) =>
            match scanElems (scanValue n fuel (depth + 1)) n rest [v] with
            | none => none
            | some (vs, rest1) => some (Json.arr vs, rest1)
    else if c = '"' then
      match scanString n cs [] with
      | none => none
      | some (s, rest) => some (Json.str s, rest)
    else if c = 't' then (matchLit ['r', 'u', 'e'] cs).map (fun rest => (Json.bool true, rest))
    else if c = 'f' then
      (matchLit ['a', 'l', 's', 'e'] cs).map (fun rest => (Json.bool false, rest))
    else if c = 'n' then (matchLit ['u', 'l', 'l'] cs).map (fun rest => (Json.null, rest))
    else if c = '-' || isDigit c then
      (scanNumber (c :: cs)).map (fun r => (Json.num r.1, r.2))
    else none

/-- The whole text must be one JSON value surrounded by optional white space
(`checkValid`); the result is the value it denotes, `none` on a syntax error.
The bounds passed to `scanValue` exceed the length of the text; every round of
every loop consumes a character, so they are never the reason for `none`. -/
def parseJSON (body : String) : Option Json :=
  match scanValue (body.length + 1) (body.length + 1) 0 (skipSpace body.data) with
  | none => none
  | some (v, rest) => if (skipSpace rest).isEmpty then some v else none

/-! ## Decoding a JSON value into Go values (`json.Unmarshal`)

The decoder stores into an existing Go value and keeps going after a type
mismatch, remembering the first one (`saveError`). Each function below takes
the current value and returns the value afterwards with the error to save, if
any. -/

/-- Case folding of one character of an object key, as far as it matters for
matching the ASCII field names used here: ASCII letters fold together, and so do
the Kelvin sign with `k` and the long s with `s`. -/
def foldRune (c : Char) : Char :=
  if 'a' ≤ c && c ≤ 'z' then Char.ofNat (c.toNat - 32)
  else if c = Char.ofNat 0x212A then 'K'
  else if c = Char.ofNat 0x17F then 'S'
  else c

/-- Whether an object key selects the struct field with JSON name `name`. -/
def equalFold (name key : String) : Bool :=
  name.data.map foldRune = key.data.map foldRune

/-- Keeps the first error (`saveError`). -/
def firstError (saved new : Option GoError) : Option GoError :=
  match saved with
  | some e => some e
  | none => new

/-- The `Value` that an `UnmarshalTypeError` reports for a JSON value. -/
def jsonKind : Json → String
  | .null => "null"
  | .bool _ => "bool"
  | .num _ => "number"
  | .str _ => "string"
  | .arr _ => "array"
  | .obj _ => "object"

/-- Stores a JSON value into a Go `string`. -/
def storeString (v : Json) (cur : String) : String × Option GoError :=
  match v with
  | .str s => (s, none)
  | .null => (cur, none)
  | .bool b => (cur, some (.unmarshalType (jsonKind (.bool b)) .string))
  | .num l => (cur, some (.unmarshalType (jsonKind (.num l)) .string))
  | .arr es => (cur, some (.unmarshalType (jsonKind (.arr es)) .string))
  | .obj ms => (cur, some (.unmarshalType (jsonKind (.obj ms)) .string))

/-- Stores the members of a JSON object one after the other, in text order. -/
def decodeMembers {α : Type} (setField : α → String → Json → α × Option GoError) :
    List (String × Json) → α → α × Option GoError
  | [], cur => (cur, none)
  | (k, v) :: ms, cur =>
    let r := setField cur k v
    let r1 := decodeMembers setField ms r.1
    (r1.1, firstError r.2 r1.2)

/-- One member of an object decoded into a `TanaNode`, by its struct tags
`name`, `description` and `nodeId`; other keys are skipped. -/
def TanaNode.setField (n : TanaNode) (key : String) (v : Json) : TanaNode × Option GoError :=
  if equalFold "name" key then
    let r := storeString v n.Name
    ({ n with Name := r.1 }, r.2)
  else if equalFold "description" key then
    let r := storeString v n.Description
    ({ n with Description := r.1 }, r.2)
  else if equalFold "nodeId" key then
    let r := storeString v n.NodeID
    ({ n with NodeID := r.1 }, r.2)
  else (n, none)

def decodeTanaNode (v : Json) (cur : TanaNode) : TanaNode × Option GoError :=
  match v with
  | .obj ms => decodeMembers TanaNode.setField ms cur
  | .null => (cur, none)
  | .bool b => (cur, some (.unmarshalType (jsonKind (.bool b)) .tanaNode))
  | .num l => (cur, some (.unmarshalType (jsonKind (.num l)) .tanaNode))
  | .str s => (cur, some (.unmarshalType (jsonKind (.str s)) .tanaNode))
  | .arr es => (cur, some (.unmarshalType (jsonKind (.arr es)) .tanaNode))

/-- A `[]TanaNode` while it is being decoded into: its visible elements and the
slots of its backing array past its length that an earlier store has written
(they matter only when the key `children` occurs more than once). -/
structure NodeSlice where
  elems : List TanaNode
  spare : List TanaNode
  deriving DecidableEq, Repr

/-- Decodes the elements of an array into the slots `old` of the backing array;
a slot that does not exist yet starts as the zero value. -/
def decodeElems : List Json → List TanaNode → List TanaNode × Option GoError
  | [], _ => ([], none)
  | e :: es, old =>
    let r := decodeTanaNode e (old.headD TanaNode.zero)
    let r1 := decodeElems es old.tail
    (r.1 :: r1.1, firstError r.2 r1.2)

/-- Stores a JSON value into a `[]TanaNode`: an array is decoded element by
element into the existing slots and the slice is cut to the array's length (an
empty array gives a fresh empty slice), `null` gives the `nil` slice. -/
def decodeChildren (v : Json) (cur : NodeSlice) : NodeSlice × Option GoError :=
  match v with
  | .arr es =>
    let old := cur.elems ++ cur.spare
    let r := decodeElems es old
    if es.isEmpty then (⟨[], []⟩, r.2) else (⟨r.1, old.drop es.length⟩, r.2)
  | .null => (⟨[], []⟩, none)
  | .bool b => (cur, some (.unmarshalType (jsonKind (.bool b)) .tanaNodeSlice))
  | .num l => (cur, some (.unmarshalType (jsonKind (.num l)) .tanaNodeSlice))
  | .str s => (cur, some (.unmarshalType (jsonKind (.str s)) .tanaNodeSlice))
  | .obj ms => (cur, some (.unmarshalType (jsonKind (.obj ms)) .tanaNodeSlice))

/-- The local `result` of `makeRequest`: `struct { Children []TanaNode }` with
tag `children`. -/
structure Envelope where
  Children : NodeSlice
  deriving DecidableEq, Repr

def Envelope.zero : Envelope := ⟨⟨[], []⟩⟩

def Envelope.setField (r : Envelope) (key : String) (v : Json) : Envelope × Option GoError :=
  if equalFold "children" key then
    let x := decodeChildren v r.Children
    ({ r with Children := x.1 }, x.2)
  else (r, none)

def decodeEnvelope (v : Json) (cur : Envelope) : Envelope × Option GoError :=
  match v with
  | .obj ms => decodeMembers Envelope.setField ms cur
  | .null => (cur, none)
  | .bool b => (cur, some (.unmarshalType (jsonKind (.bool b)) .envelope))
  | .num l => (cur, some (.unmarshalType (jsonKind (.num l)) .envelope))
  | .str s => (cur, some (.unmarshalType (jsonKind (.str s)) .envelope))
  | .arr es => (cur, some (.unmarshalType (jsonKind (.arr es)) .envelope))

/-- The call `json.Unmarshal(bodyBytes, &result)` on the zero `result`: the
envelope afterwards and the returned error. A text that is not valid JSON is
rejected before anything is stored. -/
def jsonUnmarshal (body : String) : Envelope × Option GoError :=
  match parseJSON body with
  | none => (Envelope.zero, some .syntaxError)
  | some v => decodeEnvelope v Envelope.zero

/-! ## Requests, responses and the world -/

/-- The values the payload maps hold. -/
inductive PayloadValue where
  | str (s : String)
  | plainNodes (ns : List APIPlainNode)
  | nodes (ns : List APINode)
  | fields (fs : List APIField)
  deriving DecidableEq, Repr

/-- A payload `map[string]interface{}`, as its key/value entries. -/
abbrev Payload := List (String × PayloadValue)

/-- Entries of an `http.Header`. -/
abbrev Header := List (String × String)

/-- Sets a header entry, replacing an existing one with that key
(`Header.Set`). -/
def Header.Set (h : Header) (key value : String) : Header :=
  h.filter (fun kv => kv.1 ≠ key) ++ [(key, value)]

/-- An `*http.Request` as `makeRequest` builds it. `Body` is the payload that
`json.Marshal` serialised into the request body. -/
structure Request where
  Method : String
  URL : String
  Header : Header
  Body : Payload
  deriving DecidableEq, Repr

/-- An `*http.Response`: its status code and what `io.ReadAll` reads from its
body. -/
structure Response where
  StatusCode : Nat
  Body : String
  deriving DecidableEq, Repr

def StatusOK : Nat := 200

def StatusCreated : Nat := 201

/-- What surrounds the client.
* `marshalErr p` is the error of `json.Marshal(p)`, if it fails;
* `requestErr method url` is the error of `http.NewRequest`, if it fails;
* `roundTrip log req` is what `client.Do(req)` returns when the requests in
  `log` have been issued before;
* `log` lists the requests handed to `client.Do` so far, oldest first. -/
structure World where
  marshalErr : Payload → Option String
  requestErr : String → String → Option String
  roundTrip : List Request → Request → Except String Response
  log : List Request

/-! ## The client -/

def NewTanaAPIHelper (token endpointUrl : String) : TanaAPIHelper :=
  let helper : TanaAPIHelper := { Token := token, Endpoint := endpoint }
  if endpointUrl ≠ "" then { helper with Endpoint := endpointUrl } else helper

/-- The value of `fmt.Errorf("error: %s", s)`. -/
def errorfBody (s : String) : GoError := .errorf ("error: " ++ s)

def makeRequest (h : TanaAPIHelper) (payload : Payload) (w : World) :
    (List TanaNode × Option GoError) × World :=
  match w.marshalErr payload with
  | some e => (([], some (.marshal e)), w)
  | none =>
    match w.requestErr "POST" h.Endpoint with
    | some e => (([], some (.newRequest e)), w)
    | none =>
      let req : Request := { Method := "POST", URL := h.Endpoint, Header := [], Body := payload }
      let req := { req with Header := req.Header.Set "Authorization" ("Bearer " ++ h.Token) }
      let req := { req with Header := req.Header.Set "Content-Type" "application/json" }
      let w1 : World := { w with log := w.log ++ [req] }
      match w.roundTrip w.log req with
      | .error e => (([], some (.transport e)), w1)
      | .ok res =>
        if res.StatusCode = StatusOK ∨ res.StatusCode = StatusCreated then
          let r := jsonUnmarshal res.Body
          match r.2 with
          | some err => (([], some err), w1)
          | none => ((r.1.Children.elems, none), w1)
        else (([], some (errorfBody res.Body)), w1)

/-! ### The caller's field list in memory

`createFieldDefinitions` assigns to `fields[i].Supertags` of the caller's slice,
and `append` writes in place when the slice has spare capacity, so this part
of the client is modelled over backing arrays. -/

/-- A `[]SuperTag` value: a window on a backing array. It shows the `len` slots
from `off` on, and `spare` more slots of the array lie behind them, so its
capacity is `len + spare`. -/
structure TagSlice where
  arr : Nat
  off : Nat
  len : Nat
  spare : Nat
  deriving DecidableEq, Repr

def TagSlice.cap (s : TagSlice) : Nat := s.len + s.spare

/-- The backing arrays of the tag slices. `cell a k` is slot `k` of array `a`;
arrays numbered `next` and up are not allocated yet; `grow c` is the number of
spare slots the runtime adds when an append to a full slice of capacity `c`
moves it to a new array. -/
structure Memory where
  cell : Nat → Nat → SuperTag
  next : Nat
  grow : Nat → Nat

/-- The tags a slice shows. -/
def TagSlice.read (m : Memory) (s : TagSlice) : List SuperTag :=
  (List.range s.len).map (fun k => m.cell s.arr (s.off + k))

/-- An `APIPlainNode` as it lies in the caller's `fields` slice: its `Supertags`
is a slice header, the tags themselves are in memory. -/
structure StoredPlainNode where
  Name : String
  Description : String
  Supertags : TagSlice
  deriving DecidableEq, Repr

/-- The value of a stored node: its tags read from memory. -/
def StoredPlainNode.load (m : Memory) (f : StoredPlainNode) : APIPlainNode :=
  { Name := f.Name, Description := f.Description, Supertags := f.Supertags.read m }

/-- The built-in `append(s, x)` for one element: with spare capacity the element
is written in place behind the slice, otherwise the shown tags are copied to a
new array with `x` behind them. -/
def appendTag (m : Memory) (s : TagSlice) (x : SuperTag) : Memory × TagSlice :=
  if 0 < s.spare then
    ({ m with cell := fun a k => if a = s.arr ∧ k = s.off + s.len then x else m.cell a k },
     { s with len := s.len + 1, spare := s.spare - 1 })
  else
    ({ m with
        cell := fun a k => if a = m.next then (s.read m ++ [x]).getD k ⟨""⟩ else m.cell a k
        next := m.next + 1 },
     { arr := m.next, off := 0, len := s.len + 1, spare := m.grow s.cap })

/-- The statement `fields[i].Supertags = append(fields[i].Supertags, ...)`. -/
def tagFieldAt (st : Memory × List StoredPlainNode) (i : Nat) : Memory × List StoredPlainNode :=
  match st.2.get? i with
  | none => st
  | some f =>
    let r := appendTag st.1 f.Supertags ⟨attrDefTemplateId⟩
    (r.1, st.2.set i { f with Supertags := r.2 })

/-- The loop `for i := range fields` of `createFieldDefinitions`. -/
def tagFields (m : Memory) (fields : List StoredPlainNode) : Memory × List StoredPlainNode :=
  (List.range fields.length).foldl tagFieldAt (m, fields)

/-- What `createFieldDefinitions` leaves behind: the memory and the caller's
`fields` slice after the call, the two returned values, and the world. -/
structure FieldDefinitions where
  memory : Memory
  fields : List StoredPlainNode
  result : List TanaNode
  err : Option GoError
  world : World

def createFieldDefinitions (h : TanaAPIHelper) (m : Memory) (fields : List StoredPlainNode)
    (w : World) : FieldDefinitions :=
  let st := tagFields m fields
  let payload : Payload :=
    [("targetNodeId", .str schemaNodeId),
     ("nodes", .plainNodes (st.2.map (StoredPlainNode.load st.1)))]
  let r := makeRequest h payload w
  match r.1.2 with
  | some err => { memory := st.1, fields := st.2, result := [], err := some err, world := r.2 }
  | none =>
    let result : List TanaNode :=
      r.1.1.foldl (fun result field =>
        result ++ [{ Name := field.Name, Description := field.Description,
                     NodeID := field.NodeID }]) []
    { memory := st.1, fields := st.2, result := result, err := none, world := r.2 }

def createTagDefinition (h : TanaAPIHelper) (node : APIPlainNode) (w : World) :
    Outcome String × World :=
  let node := { node with Supertags := node.Supertags ++ [⟨coreTemplateId⟩] }
  let payload : Payload :=
    [("targetNodeId", .str schemaNodeId), ("nodes", .plainNodes [node])]
  let r := makeRequest h payload w
  match r.1.2 with
  | some err => (.ret "" (some err), r.2)
  | none =>
    match r.1.1 with
    | [] => (.panic (.indexOutOfRange 0 0), r.2)
    | n :: _ => (.ret n.NodeID none, r.2)

def createNode (h : TanaAPIHelper) (node : APINode) (targetNodeId : String) (w : World) :
    Outcome TanaNode × World :=
  let payload : Payload :=
    [("targetNodeId", .str targetNodeId), ("nodes", .nodes [node])]
  let r := makeRequest h payload w
  match r.1.2 with
  | some err => (.ret TanaNode.zero (some err), r.2)
  | none =>
    match r.1.1 with
    | [] => (.panic (.indexOutOfRange 0 0), r.2)
    | n :: _ => (.ret n none, r.2)

def setNodeName (h : TanaAPIHelper) (newName targetNodeId : String) (w : World) :
    Outcome TanaNode × World :=
  let payload : Payload :=
    [("targetNodeId", .str targetNodeId), ("setName", .str newName)]
  let r := makeRequest h payload w
  match r.1.2 with
  | some err => (.ret TanaNode.zero (some err), r.2)
  | none =>
    match r.1.1 with
    | [] => (.panic (.indexOutOfRange 0 0), r.2)
    | n :: _ => (.ret n none, r.2)

def addField (h : TanaAPIHelper) (field : APIField) (targetNodeId : String) (w : World) :
    Outcome TanaNode × World :=
  let payload : Payload :=
    [("targetNodeId", .str targetNodeId), ("nodes", .fields [field])]
  let r := makeRequest h payload w
  match r.1.2 with
  | some err => (.ret TanaNode.zero (some err), r.2)
  | none =>
    match r.1.1 with
    | [] => (.panic (.indexOutOfRange 0 0), r.2)
    | n :: _ => (.ret n none, r.2)

/-! ## Vocabulary of the statements -/

/-- The request `makeRequest` hands to `client.Do` for a payload. -/
def issuedRequest (h : TanaAPIHelper) (payload : Payload) : Request :=
  { Method := "POST"
    URL := h.Endpoint
    Header := [("Authorization", "Bearer " ++ h.Token), ("Content-Type", "application/json")]
    Body := payload }

/-- The exchange for `payload` goes through and the server's response is `res`:
encoding and request construction succeed and `client.Do` returns `res`. -/
def Answers (w : World) (h : TanaAPIHelper) (payload : Payload) (res : Response) : Prop :=
  w.marshalErr payload = none ∧ w.requestErr "POST" h.Endpoint = none ∧
    w.roundTrip w.log (issuedRequest h payload) = .ok res

deriving instance DecidableEq for Except

instance (w : World) (h : TanaAPIHelper) (payload : Payload) (res : Response) :
    Decidable (Answers w h payload res) := by
  unfold Answers; infer_instance

/-- A world in which every exchange goes through and is answered with `res`. -/
def answering (res : Response) : World :=
  { marshalErr := fun _ => none
    requestErr := fun _ _ => none
    roundTrip := fun _ _ => .ok res
    log := [] }

/-- The text `b` occurs in the text `msg`. -/
def Contains (msg b : String) : Prop := b.data <:+: msg.data

instance (msg b : String) : Decidable (Contains msg b) := by
  unfold Contains; infer_instance

/-- A field descriptor with the attribute-definition tag added after its tags. -/
def withAttrDef (f : APIPlainNode) : APIPlainNode :=
  { f with Supertags := f.Supertags ++ [⟨"SYS_T02"⟩] }

/-- A node descriptor with the core-template tag added after its tags. -/
def withCoreTemplate (n : APIPlainNode) : APIPlainNode :=
  { n with Supertags := n.Supertags ++ [⟨"SYS_T01"⟩] }

/-- The descriptors as `createFieldDefinitions` reads them after its loop. -/
def sentNodes (m : Memory) (fields : List StoredPlainNode) : List APIPlainNode :=
  (tagFields m fields).2.map (StoredPlainNode.load (tagFields m fields).1)

/-- The caller's `fields` list as it reads after a call. -/
def callerView (r : FieldDefinitions) : List APIPlainNode :=
  r.fields.map (StoredPlainNode.load r.memory)

/-- The payload `createFieldDefinitions` hands to `makeRequest`. -/
def fieldDefinitionsPayload (m : Memory) (fields : List StoredPlainNode) : Payload :=
  [("targetNodeId", .str "SCHEMA"), ("nodes", .plainNodes (sentNodes m fields))]

/-- The loop of `createFieldDefinitions`, element after element. -/
def tagAll (m : Memory) : List StoredPlainNode → Memory × List StoredPlainNode
  | [] => (m, [])
  | f :: fs =>
    let r := appendTag m f.Supertags ⟨attrDefTemplateId⟩
    let r1 := tagAll r.1 fs
    (r1.1, { f with Supertags := r.2 } :: r1.2)

/-- Slot `k` of array `a` lies within the capacity of the slice. -/
def TagSlice.Owns (s : TagSlice) (a k : Nat) : Prop :=
  a = s.arr ∧ s.off ≤ k ∧ k < s.off + s.cap

/-- Two slices share no slot of a backing array, spare capacity included. -/
def TagSlice.Apart (s t : TagSlice) : Prop :=
  s.cap = 0 ∨ t.cap = 0 ∨ s.arr ≠ t.arr ∨ s.off + s.cap ≤ t.off ∨ t.off + t.cap ≤ s.off

instance (s t : TagSlice) : Decidable (s.Apart t) := by
  unfold TagSlice.Apart; infer_instance

/-- The tag slices of the descriptors lie in allocated arrays. -/
def Allocated (m : Memory) (fields : List StoredPlainNode) : Prop :=
  ∀ f ∈ fields, f.Supertags.cap = 0 ∨ f.Supertags.arr < m.next

instance (m : Memory) (fields : List StoredPlainNode) : Decidable (Allocated m fields) := by
  unfold Allocated; infer_instance

/-- The tag slices of the descriptors lie in allocated arrays and no two of them
share a slot. -/
def Separate (m : Memory) (fields : List StoredPlainNode) : Prop :=
  Allocated m fields ∧ fields.Pairwise (fun f g => f.Supertags.Apart g.Supertags)

instance (m : Memory) (fields : List StoredPlainNode) : Decidable (Separate m fields) := by
  unfold Separate; infer_instance


def tagDefinitionPayload (node : APIPlainNode) : Payload :=
  [("targetNodeId", .str "SCHEMA"), ("nodes", .plainNodes [withCoreTemplate node])]

def createNodePayload (node : APINode) (targetNodeId : String) : Payload :=
  [("targetNodeId", .str targetNodeId), ("nodes", .nodes [node])]

def setNodeNamePayload (newName targetNodeId : String) : Payload :=
  [("targetNodeId", .str targetNodeId), ("setName", .str newName)]

def addFieldPayload (field : APIField) (targetNodeId : String) : Payload :=
  [("targetNodeId", .str targetNodeId), ("nodes", .fields [field])]

/-- The JSON record of a created node: keys `name`, `description`, `nodeId`. -/
def nodeJson (c : TanaNode) : Json :=
  .obj [("name", .str c.Name), ("description", .str c.Description), ("nodeId", .str c.NodeID)]

/-- The JSON object `\x7b"children": [c1, ..., cn]\x7d`. -/
def childrenJson (cs : List TanaNode) : Json :=
  .obj [("children", .arr (cs.map nodeJson))]

/-! ### JSON text of a success response -/

/-- The lower-case hexadecimal digit of `k`. -/
def hexDigit (k : Nat) : Char :=
  if k < 10 then Char.ofNat (48 + k) else Char.ofNat (87 + k)

/-- How a character is written inside a JSON string literal. -/
def escapeChar (c : Char) : List Char :=
  if c = '"' then ['\\', '"']
  else if c = '\\' then ['\\', '\\']
  else if c.toNat < 0x20 then
    ['\\', 'u', '0', '0', hexDigit (c.toNat / 16), hexDigit (c.toNat % 16)]
  else [c]

/-- The body of a string literal for `s`, without the quotes. -/
def escape (s : List Char) : List Char :=
  match s with
  | [] => []
  | c :: cs => escapeChar c ++ escape cs

/-- A string literal for `s`. -/
def quote (s : String) : List Char := '"' :: (escape s.data ++ ['"'])

/-- The text `"key":"value"`. -/
def renderMember (key value : String) : List Char :=
  quote key ++ ':' :: quote value

/-- The JSON text of one created-node record. -/
def renderNode (c : TanaNode) : List Char :=
  '\x7b' :: (renderMember "name" c.Name ++ ',' :: (renderMember "description" c.Description ++
    ',' :: (renderMember "nodeId" c.NodeID ++ ['\x7d'])))

/-- The records after the first one, each preceded by a comma. -/
def renderTail : List TanaNode → List Char
  | [] => []
  | c :: cs => ',' :: (renderNode c ++ renderTail cs)

/-- The records of a `children` array, separated by commas. -/
def renderNodes : List TanaNode → List Char
  | [] => []
  | c :: cs => renderNode c ++ renderTail cs

/-- The JSON text of a success response holding the children `cs`. -/
def renderChildren (cs : List TanaNode) : String :=
  String.mk ('\x7b' :: (quote "children" ++ ':' :: '[' :: (renderNodes cs ++ [']', '\x7d'])))

/-- A response status that `makeRequest` treats as success. -/
def IsSuccess (res : Response) : Prop := res.StatusCode = 200 ∨ res.StatusCode = 201

instance (res : Response) : Decidable (IsSuccess res) := by
  unfold IsSuccess; infer_instance

/-- How the single-node operations finish once `makeRequest` has returned:
pass the error on with the zero value, or take element 0 of the children. -/
def firstChild (r : (List TanaNode × Option GoError) × World) : Outcome TanaNode × World :=
  match r.1.2 with
  | some err => (.ret TanaNode.zero (some err), r.2)
  | none =>
    match r.1.1 with
    | [] => (.panic (.indexOutOfRange 0 0), r.2)
    | n :: _ => (.ret n none, r.2)

/-! ## Sample response bodies -/

/-- A reply with two children. -/
def twoFieldsBody : String :=
  "\x7b\"children\":[\x7b\"name\":\"Author\",\"description\":\"who\",\"nodeId\":\"f1\"\x7d,\x7b\"name\":\"Year\",\"description\":\"when\",\"nodeId\":\"f2\"\x7d]\x7d"

/-- A reply with one child. -/
def oneTagBody : String :=
  "\x7b\"children\":[\x7b\"name\":\"book\",\"description\":\"a book\",\"nodeId\":\"tag7\"\x7d]\x7d"

/-- One backing array of capacity 4 holding the tags `t` and `u`. -/
def sharedMemory : Memory :=
  { cell := fun a k => if a = 0 then ([⟨"t"⟩, ⟨"u"⟩] : List SuperTag).getD k ⟨""⟩ else ⟨""⟩
    next := 1
    grow := fun c => c }

/-- Two descriptors whose tag slices are `base[:1]` and `base[:2]` of the array of
`sharedMemory`: `A` has the tag `t`, `B` the tags `t` and `u`. -/
def sharedFields : List StoredPlainNode :=
  [⟨"A", "a", ⟨0, 0, 1, 3⟩⟩, ⟨"B", "b", ⟨0, 0, 2, 2⟩⟩]

/-- One backing array of capacity 2 holding the tag `t9`. -/
def ownMemory : Memory :=
  { cell := fun a k => if a = 0 then ([⟨"t9"⟩] : List SuperTag).getD k ⟨""⟩ else ⟨""⟩
    next := 1
    grow := fun c => c }

/-- Two descriptors: `Author` without tags (a nil slice) and `Year` with the tag
`t9` and one spare slot. -/
def ownFields : List StoredPlainNode :=
  [⟨"Author", "who", ⟨0, 0, 0, 0⟩⟩, ⟨"Year", "when", ⟨0, 0, 1, 1⟩⟩]

/-! ## Auxiliary lemmas -/

theorem header_of_request (token : String) :
    Header.Set (Header.Set [] "Authorization" ("Bearer " ++ token))
      "Content-Type" "application/json"
      = [("Authorization", "Bearer " ++ token), ("Content-Type", "application/json")] := by
  simp [Header.Set]

theorem makeRequest_of_answers {w : World} {h : TanaAPIHelper} {payload : Payload}
    {res : Response} (ha : Answers w h payload res) :
    makeRequest h payload w =
      ((if IsSuccess res then
          match (jsonUnmarshal res.Body).2 with
          | some err => ([], some err)
          | none => ((jsonUnmarshal res.Body).1.Children.elems, none)
        else ([], some (errorfBody res.Body))),
        { w with log := w.log ++ [issuedRequest h payload] }) := by
  obtain ⟨h1, h2, h3⟩ := ha
  unfold issuedRequest at h3
  unfold makeRequest
  simp only [h1, h2, header_of_request, h3, IsSuccess, StatusOK, StatusCreated, issuedRequest]
  by_cases hs : res.StatusCode = 200 ∨ res.StatusCode = 201
  · simp only [hs, if_true]
    cases (jsonUnmarshal res.Body).2 <;> rfl
  · simp only [hs, if_false]

theorem makeRequest_failure {w : World} {h : TanaAPIHelper} {payload : Payload}
    {res : Response} (ha : Answers w h payload res) (hs : ¬ IsSuccess res) :
    (makeRequest h payload w).1 = ([], some (errorfBody res.Body)) := by
  rw [makeRequest_of_answers ha]; simp [hs]

theorem contains_errorfBody (b : String) : Contains ("error: " ++ b) b := by
  unfold Contains
  rw [String.data_append]
  exact (List.suffix_append _ _).isInfix


theorem createNode_eq (h : TanaAPIHelper) (node : APINode) (t : String) (w : World) :
    createNode h node t w = firstChild (makeRequest h (createNodePayload node t) w) := rfl

theorem setNodeName_eq (h : TanaAPIHelper) (newName t : String) (w : World) :
    setNodeName h newName t w = firstChild (makeRequest h (setNodeNamePayload newName t) w) := rfl

theorem addField_eq (h : TanaAPIHelper) (field : APIField) (t : String) (w : World) :
    addField h field t w = firstChild (makeRequest h (addFieldPayload field t) w) := rfl

theorem createTagDefinition_eq (h : TanaAPIHelper) (node : APIPlainNode) (w : World) :
    createTagDefinition h node w =
      match (makeRequest h (tagDefinitionPayload node) w).1.2 with
      | some err => (.ret "" (some err), (makeRequest h (tagDefinitionPayload node) w).2)
      | none =>
        match (makeRequest h (tagDefinitionPayload node) w).1.1 with
        | [] => (.panic (.indexOutOfRange 0 0), (makeRequest h (tagDefinitionPayload node) w).2)
        | n :: _ => (.ret n.NodeID none, (makeRequest h (tagDefinitionPayload node) w).2) := rfl

theorem read_length (m : Memory) (s : TagSlice) : (s.read m).length = s.len := by
  simp [TagSlice.read]

theorem read_congr {m m1 : Memory} {s : TagSlice}
    (h : ∀ k, k < s.len → m1.cell s.arr (s.off + k) = m.cell s.arr (s.off + k)) :
    s.read m1 = s.read m := by
  unfold TagSlice.read
  apply List.map_congr_left
  intro k hk
  exact h k (List.mem_range.mp hk)

theorem read_eq_nil {m : Memory} {s : TagSlice} (h : s.cap = 0) : s.read m = [] := by
  have : s.len = 0 := by unfold TagSlice.cap at h; omega
  simp [TagSlice.read, this]

theorem appendTag_read (m : Memory) (s : TagSlice) (x : SuperTag) :
    (appendTag m s x).2.read (appendTag m s x).1 = s.read m ++ [x] := by
  unfold appendTag
  by_cases hs : 0 < s.spare
  · simp only [hs, if_true]
    simp only [TagSlice.read, List.range_succ, List.map_append, List.map_cons, List.map_nil]
    congr 1
    · apply List.map_congr_left
      intro k hk
      have : k < s.len := List.mem_range.mp hk
      have hne : ¬ (s.off + k = s.off + s.len) := by omega
      simp [hne]
  · simp only [hs, if_false]
    apply List.ext_getElem?
    intro k
    simp only [TagSlice.read, List.getElem?_map, Nat.zero_add, if_true]
    by_cases hk : k < s.len + 1
    · rw [List.getElem?_range hk]
      simp only [Option.map_some', List.getD_eq_getElem?_getD]
      have hl : k < ((List.range s.len).map (fun k => m.cell s.arr (s.off + k)) ++ [x]).length := by
        simp; omega
      rw [List.getElem?_eq_getElem hl]
      simp
    · have h1 : (List.range (s.len + 1))[k]? = none := by
        apply List.getElem?_eq_none; simp; omega
      have h2 : ((List.range s.len).map (fun k => m.cell s.arr (s.off + k)) ++ [x])[k]? = none := by
        apply List.getElem?_eq_none; simp; omega
      rw [h1, h2]; rfl

theorem appendTag_next (m : Memory) (s : TagSlice) (x : SuperTag) :
    m.next ≤ (appendTag m s x).1.next ∧ (appendTag m s x).1.grow = m.grow := by
  unfold appendTag
  by_cases hs : 0 < s.spare <;> simp [hs]

/-- Slots outside the capacity of the slice appended to keep their content. -/
theorem appendTag_frame (m : Memory) (s : TagSlice) (x : SuperTag) (a k : Nat)
    (ha : a < m.next) (ho : ¬ s.Owns a k) :
    (appendTag m s x).1.cell a k = m.cell a k := by
  unfold appendTag
  by_cases hs : 0 < s.spare
  · simp only [hs, if_true]
    have : ¬ (a = s.arr ∧ k = s.off + s.len) := by
      intro hc
      apply ho
      unfold TagSlice.Owns TagSlice.cap
      omega
    simp [this]
  · simp only [hs, if_false]
    have : ¬ a = m.next := by omega
    simp [this]

/-- Where the slice lies after an append: in its old place, or in the array just
allocated. -/
theorem appendTag_place (m : Memory) (s : TagSlice) (x : SuperTag) :
    0 < (appendTag m s x).2.cap ∧
    (((appendTag m s x).2.arr = s.arr ∧ (appendTag m s x).2.off = s.off ∧
        (appendTag m s x).2.cap = s.cap) ∨
      ((appendTag m s x).2.arr = m.next ∧ (appendTag m s x).1.next = m.next + 1)) := by
  unfold appendTag
  by_cases hs : 0 < s.spare
  · simp only [hs, if_true, TagSlice.cap]
    refine ⟨by omega, Or.inl ?_⟩
    simp; omega
  · simp only [hs, if_false, TagSlice.cap]
    refine ⟨by omega, Or.inr ?_⟩
    simp

theorem apart_not_owns {s t : TagSlice} (h : s.Apart t) (a k : Nat) :
    ¬ (s.Owns a k ∧ t.Owns a k) := by
  unfold TagSlice.Apart at h
  unfold TagSlice.Owns
  omega

theorem owns_of_lt (s : TagSlice) {k : Nat} (hk : k < s.len) : s.Owns s.arr (s.off + k) := by
  unfold TagSlice.Owns TagSlice.cap
  omega

theorem apart_of_same_place {s s1 t : TagSlice} (h : s.Apart t)
    (hp : s1.arr = s.arr ∧ s1.off = s.off ∧ s1.cap = s.cap) : s1.Apart t := by
  unfold TagSlice.Apart at h ⊢
  omega

theorem apart_symm {s t : TagSlice} (h : s.Apart t) : t.Apart s := by
  unfold TagSlice.Apart at h ⊢
  omega

/-- An append to one slice leaves the tags of a slice apart from it as they
were. -/
theorem read_appendTag_other (m : Memory) (s t : TagSlice) (x : SuperTag)
    (ht : t.cap = 0 ∨ t.arr < m.next) (hap : s.Apart t) :
    t.read (appendTag m s x).1 = t.read m := by
  rcases ht with ht | ht
  · rw [read_eq_nil ht, read_eq_nil ht]
  · apply read_congr
    intro k hk
    apply appendTag_frame m s x _ _ ht
    intro ho
    exact apart_not_owns hap _ _ ⟨ho, owns_of_lt t hk⟩

/-- After an append the slice is apart from every slice the old one was apart
from. -/
theorem appendTag_apart (m : Memory) (s t : TagSlice) (x : SuperTag)
    (ht : t.cap = 0 ∨ t.arr < m.next) (hap : s.Apart t) :
    (appendTag m s x).2.Apart t := by
  rcases (appendTag_place m s x).2 with hp | hp
  · exact apart_of_same_place hap hp
  · unfold TagSlice.Apart
    omega

theorem appendTag_allocated (m : Memory) (s : TagSlice) (x : SuperTag)
    (hs : s.cap = 0 ∨ s.arr < m.next) :
    (appendTag m s x).2.arr < (appendTag m s x).1.next := by
  have h1 := appendTag_place m s x
  have h2 := (appendTag_next m s x).1
  rcases h1.2 with hp | hp
  · omega
  · omega

theorem tagAll_spec : ∀ (fs : List StoredPlainNode) (m : Memory), Separate m fs →
    (tagAll m fs).2.map (StoredPlainNode.load (tagAll m fs).1)
      = fs.map (fun f => withAttrDef (f.load m)) ∧
    m.next ≤ (tagAll m fs).1.next ∧
    (∀ a k, a < m.next → (∀ g ∈ fs, ¬ g.Supertags.Owns a k) →
      (tagAll m fs).1.cell a k = m.cell a k) ∧
    (∀ g1 ∈ (tagAll m fs).2, 0 < g1.Supertags.cap ∧
      g1.Supertags.arr < (tagAll m fs).1.next ∧
      ((∃ g ∈ fs, g1.Supertags.arr = g.Supertags.arr ∧ g1.Supertags.off = g.Supertags.off ∧
          g1.Supertags.cap = g.Supertags.cap) ∨ m.next ≤ g1.Supertags.arr)) ∧
    (tagAll m fs).2.Pairwise (fun f g => f.Supertags.Apart g.Supertags) := by
  intro fs
  induction fs with
  | nil =>
    intro m _
    simp [tagAll]
  | cons f fs ih =>
    intro m hsep
    obtain ⟨halloc, hpair⟩ := hsep
    unfold Allocated at halloc
    rw [List.pairwise_cons] at hpair
    obtain ⟨hhead, htail⟩ := hpair
    have hf := halloc f (List.mem_cons_self _ _)
    have hfs : ∀ g ∈ fs, g.Supertags.cap = 0 ∨ g.Supertags.arr < m.next :=
      fun g hg => halloc g (List.mem_cons_of_mem _ hg)
    have hnext := (appendTag_next m f.Supertags ⟨attrDefTemplateId⟩).1
    have hsep1 : Separate (appendTag m f.Supertags ⟨attrDefTemplateId⟩).1 fs := by
      refine ⟨fun g hg => ?_, htail⟩
      rcases hfs g hg with h | h
      · exact Or.inl h
      · exact Or.inr (by omega)
    obtain ⟨ih1, ih2, ih3, ih4, ih5⟩ := ih _ hsep1
    have hplace := appendTag_place m f.Supertags ⟨attrDefTemplateId⟩
    have hal := appendTag_allocated m f.Supertags ⟨attrDefTemplateId⟩ hf
    have hap1 : ∀ g ∈ fs, (appendTag m f.Supertags ⟨attrDefTemplateId⟩).2.Apart g.Supertags :=
      fun g hg => appendTag_apart m _ _ _ (hfs g hg) (hhead g hg)
    simp only [tagAll]
    refine ⟨?_, ?_, ?_, ?_, ?_⟩
    · simp only [List.map_cons]
      congr 1
      · -- the head
        have hread : (appendTag m f.Supertags ⟨attrDefTemplateId⟩).2.read
            (tagAll (appendTag m f.Supertags ⟨attrDefTemplateId⟩).1 fs).1
            = (appendTag m f.Supertags ⟨attrDefTemplateId⟩).2.read
              (appendTag m f.Supertags ⟨attrDefTemplateId⟩).1 := by
          apply read_congr
          intro k hk
          apply ih3 _ _ hal
          intro g hg ho
          exact apart_not_owns (hap1 g hg) _ _ ⟨owns_of_lt _ hk, ho⟩
        simp only [StoredPlainNode.load, withAttrDef]
        rw [hread, appendTag_read]
        rfl
      · -- the tail
        rw [ih1]
        apply List.map_congr_left
        intro g hg
        simp only [StoredPlainNode.load]
        rw [read_appendTag_other m _ _ _ (hfs g hg) (hhead g hg)]
    · omega
    · intro a k ha hown
      rw [ih3 a k (by omega) (fun g hg => hown g (List.mem_cons_of_mem _ hg))]
      exact appendTag_frame m _ _ a k ha (hown f (List.mem_cons_self _ _))
    · intro g1 hg1
      rcases List.mem_cons.mp hg1 with h | h
      · subst h
        refine ⟨hplace.1, by simp only; omega, ?_⟩
        rcases hplace.2 with hp | hp
        · exact Or.inl ⟨f, List.mem_cons_self _ _, hp⟩
        · exact Or.inr (by simp only; omega)
      · obtain ⟨h1, h2, h3⟩ := ih4 g1 h
        refine ⟨h1, h2, ?_⟩
        rcases h3 with ⟨g, hg, hp⟩ | h3
        · exact Or.inl ⟨g, List.mem_cons_of_mem _ hg, hp⟩
        · exact Or.inr (by omega)
    · rw [List.pairwise_cons]
      refine ⟨?_, ih5⟩
      intro g1 hg1
      obtain ⟨h1, h2, h3⟩ := ih4 g1 hg1
      rcases h3 with ⟨g, hg, hp⟩ | h3
      · exact apart_symm (apart_of_same_place (apart_symm (hap1 g hg)) hp)
      · unfold TagSlice.Apart
        simp only
        omega

theorem tagAll_length (fs : List StoredPlainNode) : ∀ m, (tagAll m fs).2.length = fs.length := by
  induction fs with
  | nil => intro m; rfl
  | cons f fs ih => intro m; simp [tagAll, ih]

theorem tagAll_append (a b : List StoredPlainNode) : ∀ m,
    tagAll m (a ++ b) =
      ((tagAll (tagAll m a).1 b).1, (tagAll m a).2 ++ (tagAll (tagAll m a).1 b).2) := by
  induction a with
  | nil => intro m; rfl
  | cons f a ih => intro m; simp [tagAll, ih]

theorem tagFields_upto (m : Memory) (l : List StoredPlainNode) (n : Nat) (hn : n ≤ l.length) :
    (List.range n).foldl tagFieldAt (m, l) =
      ((tagAll m (l.take n)).1, (tagAll m (l.take n)).2 ++ l.drop n) := by
  induction n with
  | zero => simp [tagAll]
  | succ n ih =>
    have hlt : n < l.length := by omega
    rw [List.range_succ, List.foldl_append, ih (by omega)]
    simp only [List.foldl_cons, List.foldl_nil]
    have hlen : (tagAll m (l.take n)).2.length = n := by
      rw [tagAll_length, List.length_take]; omega
    have hdrop : l.drop n = l[n] :: l.drop (n + 1) := List.drop_eq_getElem_cons hlt
    have htake : l.take (n + 1) = l.take n ++ [l[n]] := by
      rw [List.take_succ, List.getElem?_eq_getElem hlt]; rfl
    unfold tagFieldAt
    simp only [List.get?_eq_getElem?]
    have hget : ((tagAll m (l.take n)).2 ++ l.drop n)[n]? = some l[n] := by
      rw [List.getElem?_append_right (by omega), hlen, hdrop]; simp
    rw [hget]
    simp only
    rw [htake, tagAll_append]
    simp only [tagAll, List.append_assoc]
    congr 1
    rw [List.set_append_right _ _ (by omega), hlen, Nat.sub_self, hdrop]
    rfl

theorem tagFields_eq_tagAll (m : Memory) (fields : List StoredPlainNode) :
    tagFields m fields = tagAll m fields := by
  unfold tagFields
  rw [tagFields_upto m fields fields.length (Nat.le_refl _)]
  simp

/-- With the tag slices apart, the loop adds the tag behind each descriptor's own
tags, and leaves the slices apart. -/
theorem tagFields_separate {m : Memory} {fields : List StoredPlainNode}
    (hsep : Separate m fields) :
    (tagFields m fields).2.map (StoredPlainNode.load (tagFields m fields).1)
      = fields.map (fun f => withAttrDef (f.load m)) ∧
    Separate (tagFields m fields).1 (tagFields m fields).2 := by
  rw [tagFields_eq_tagAll]
  obtain ⟨h1, _, _, h4, h5⟩ := tagAll_spec fields m hsep
  exact ⟨h1, fun g hg => Or.inr (h4 g hg).2.1, h5⟩

/-- An append changes a slot of an allocated array only by writing the appended
element into it. -/
theorem appendTag_writes (m : Memory) (s : TagSlice) (x : SuperTag) (a k : Nat)
    (ha : a < m.next) :
    (appendTag m s x).1.cell a k = m.cell a k ∨ (appendTag m s x).1.cell a k = x := by
  unfold appendTag
  by_cases hs : 0 < s.spare
  · simp only [hs, if_true]
    by_cases hc : a = s.arr ∧ k = s.off + s.len
    · right; simp [hc]
    · left; simp [hc]
  · simp only [hs, if_false]
    have : ¬ a = m.next := by omega
    left; simp [this]

theorem appendTag_last (m : Memory) (s : TagSlice) (x : SuperTag) :
    (appendTag m s x).2.len = s.len + 1 ∧
    (appendTag m s x).1.cell (appendTag m s x).2.arr ((appendTag m s x).2.off + s.len) = x := by
  unfold appendTag
  by_cases hs : 0 < s.spare
  · simp [hs]
  · simp [hs, TagSlice.read]

theorem tagAll_writes (fs : List StoredPlainNode) : ∀ m a k, a < m.next →
    (tagAll m fs).1.cell a k = m.cell a k ∨ (tagAll m fs).1.cell a k = ⟨attrDefTemplateId⟩ := by
  induction fs with
  | nil => intro m a k _; exact Or.inl rfl
  | cons f fs ih =>
    intro m a k ha
    have h1 := (appendTag_next m f.Supertags ⟨attrDefTemplateId⟩).1
    simp only [tagAll]
    rcases ih (appendTag m f.Supertags ⟨attrDefTemplateId⟩).1 a k (by omega) with h | h
    · rw [h]; exact appendTag_writes m _ _ a k ha
    · exact Or.inr h

theorem read_getLast (m : Memory) (s : TagSlice) (n : Nat) (hn : s.len = n + 1) :
    (s.read m).getLast? = some (m.cell s.arr (s.off + n)) := by
  simp [TagSlice.read, hn, List.range_succ]

/-- In allocated memory every descriptor's last tag after the loop is the
attribute-definition tag, whether or not tag slices share storage. -/
theorem tagAll_last (fs : List StoredPlainNode) : ∀ m,
    (∀ f ∈ fs, f.Supertags.cap = 0 ∨ f.Supertags.arr < m.next) →
    ∀ g ∈ (tagAll m fs).2,
      (g.Supertags.read (tagAll m fs).1).getLast? = some ⟨"SYS_T02"⟩ := by
  induction fs with
  | nil => intro m _ g hg; simp [tagAll] at hg
  | cons f fs ih =>
    intro m halloc g hg
    have hnext := (appendTag_next m f.Supertags ⟨attrDefTemplateId⟩).1
    simp only [tagAll] at hg ⊢
    rcases List.mem_cons.mp hg with h | h
    · subst h
      have hl := appendTag_last m f.Supertags ⟨attrDefTemplateId⟩
      have hal := appendTag_allocated m f.Supertags ⟨attrDefTemplateId⟩
        (halloc f (List.mem_cons_self _ _))
      rw [read_getLast _ _ f.Supertags.len hl.1]
      rcases tagAll_writes fs (appendTag m f.Supertags ⟨attrDefTemplateId⟩).1
          (appendTag m f.Supertags ⟨attrDefTemplateId⟩).2.arr
          ((appendTag m f.Supertags ⟨attrDefTemplateId⟩).2.off + f.Supertags.len) hal with h | h
      · rw [h, hl.2]; rfl
      · rw [h]; rfl
    · apply ih _ _ g h
      intro f1 hf1
      rcases halloc f1 (List.mem_cons_of_mem _ hf1) with h1 | h1
      · exact Or.inl h1
      · exact Or.inr (by omega)

theorem collect_eq (cs : List TanaNode) (init : List TanaNode) :
    cs.foldl (fun result field =>
        result ++ [({ Name := field.Name, Description := field.Description,
                      NodeID := field.NodeID } : TanaNode)]) init = init ++ cs := by
  induction cs generalizing init with
  | nil => simp
  | cons c cs ih => simp [ih]

theorem createFieldDefinitions_eq (h : TanaAPIHelper) (m : Memory)
    (fields : List StoredPlainNode) (w : World) :
    createFieldDefinitions h m fields w =
      match (makeRequest h (fieldDefinitionsPayload m fields) w).1.2 with
      | some err =>
        { memory := (tagFields m fields).1, fields := (tagFields m fields).2, result := [],
          err := some err, world := (makeRequest h (fieldDefinitionsPayload m fields) w).2 }
      | none =>
        { memory := (tagFields m fields).1
          fields := (tagFields m fields).2
          result := (makeRequest h (fieldDefinitionsPayload m fields) w).1.1
          err := none
          world := (makeRequest h (fieldDefinitionsPayload m fields) w).2 } := by
  unfold createFieldDefinitions
  simp only [collect_eq, List.nil_append]
  rfl

theorem single_failure {w : World} {h : TanaAPIHelper} {payload : Payload}
    {res : Response} (ha : Answers w h payload res) (hs : ¬ IsSuccess res) :
    (firstChild (makeRequest h payload w)).1 =
      .ret TanaNode.zero (some (errorfBody res.Body)) := by
  unfold firstChild
  rw [makeRequest_failure ha hs]

theorem not_success_of_ne {res : Response}
    (hs : res.StatusCode ≠ 200 ∧ res.StatusCode ≠ 201) : ¬ IsSuccess res := by
  unfold IsSuccess
  exact fun hc => hc.elim hs.1 hs.2

/-! ## Error statuses -/

/-- Claim C1. When the server's response has a status other than 200 and 201,
`makeRequest` returns the nil list and an error whose message contains the
response body, and each of `createFieldDefinitions`, `createTagDefinition`,
`createNode`, `setNodeName` and `addField` returns its zero result with an error
whose message contains the body. -/
theorem error_status_reports_body (h : TanaAPIHelper) (w : World) (res : Response)
    (hs : res.StatusCode ≠ 200 ∧ res.StatusCode ≠ 201) :
    (∀ payload, Answers w h payload res →
      ∃ msg, (makeRequest h payload w).1 = ([], some (.errorf msg)) ∧
        Contains msg res.Body) ∧
    (∀ m fields, Answers w h (fieldDefinitionsPayload m fields) res →
      ∃ msg, (createFieldDefinitions h m fields w).result = [] ∧
        (createFieldDefinitions h m fields w).err = some (.errorf msg) ∧
        Contains msg res.Body) ∧
    (∀ node, Answers w h (tagDefinitionPayload node) res →
      ∃ msg, (createTagDefinition h node w).1 = .ret "" (some (.errorf msg)) ∧
        Contains msg res.Body) ∧
    (∀ node t, Answers w h (createNodePayload node t) res →
      ∃ msg, (createNode h node t w).1 = .ret TanaNode.zero (some (.errorf msg)) ∧
        Contains msg res.Body) ∧
    (∀ newName t, Answers w h (setNodeNamePayload newName t) res →
      ∃ msg, (setNodeName h newName t w).1 = .ret TanaNode.zero (some (.errorf msg)) ∧
        Contains msg res.Body) ∧
    (∀ field t, Answers w h (addFieldPayload field t) res →
      ∃ msg, (addField h field t w).1 = .ret TanaNode.zero (some (.errorf msg)) ∧
        Contains msg res.Body) := by
  have hn := not_success_of_ne hs
  refine ⟨?_, ?_, ?_, ?_, ?_, ?_⟩
  · intro payload ha
    exact ⟨_, makeRequest_failure ha hn, contains_errorfBody _⟩
  · intro m fields ha
    refine ⟨"error: " ++ res.Body, ?_, ?_, contains_errorfBody _⟩
    · rw [createFieldDefinitions_eq, makeRequest_failure ha hn]
    · rw [createFieldDefinitions_eq, makeRequest_failure ha hn]; rfl
  · intro node ha
    refine ⟨"error: " ++ res.Body, ?_, contains_errorfBody _⟩
    rw [createTagDefinition_eq, makeRequest_failure ha hn]; rfl
  · intro node t ha
    exact ⟨_, by rw [createNode_eq]; exact single_failure ha hn, contains_errorfBody _⟩
  · intro newName t ha
    exact ⟨_, by rw [setNodeName_eq]; exact single_failure ha hn, contains_errorfBody _⟩
  · intro field t ha
    exact ⟨_, by rw [addField_eq]; exact single_failure ha hn, contains_errorfBody _⟩

/-- Status 400 with body `bad request`: `createNode` returns the zero node and an
error whose message contains `bad request`. -/
theorem error_status_reports_body_witness :
    ((400 : Nat) ≠ 200 ∧ (400 : Nat) ≠ 201) ∧
    Answers (answering ⟨400, "bad request"⟩) ⟨"token", "https://tana.test/add"⟩
      (createNodePayload ⟨"n", "d", []⟩ "INBOX") ⟨400, "bad request"⟩ ∧
    ∃ msg, (createNode ⟨"token", "https://tana.test/add"⟩ ⟨"n", "d", []⟩ "INBOX"
        (answering ⟨400, "bad request"⟩)).1 = .ret TanaNode.zero (some (.errorf msg)) ∧
      Contains msg "bad request" :=
  ⟨by decide, ⟨rfl, rfl, rfl⟩,
    (error_status_reports_body ⟨"token", "https://tana.test/add"⟩
      (answering ⟨400, "bad request"⟩) ⟨400, "bad request"⟩ (by decide)).2.2.2.1
      ⟨"n", "d", []⟩ "INBOX" ⟨rfl, rfl, rfl⟩⟩

/-- Claim C2 as stated fails: for status 400 and body `bad request` the message
of the returned error is `error: bad request`, which is not the body. -/
theorem error_message_is_not_the_body :
    ¬ (∀ (h : TanaAPIHelper) (w : World) (payload : Payload) (res : Response),
        res.StatusCode ≠ 200 ∧ res.StatusCode ≠ 201 → Answers w h payload res →
        (makeRequest h payload w).1.2 = some (.errorf res.Body)) := by
  intro hall
  have h1 := hall ⟨"token", "https://tana.test/add"⟩ (answering ⟨400, "bad request"⟩)
    (createNodePayload ⟨"n", "d", []⟩ "INBOX") ⟨400, "bad request"⟩ (by decide)
    ⟨rfl, rfl, rfl⟩
  revert h1
  decide

/-- Claim C2, amended. When the server's response has a status other than 200 and
201, the message of the error `makeRequest` returns is the text `error: `
followed by the response body. -/
theorem error_message_is_prefixed_body (h : TanaAPIHelper) (w : World) (payload : Payload)
    (res : Response) (hs : res.StatusCode ≠ 200 ∧ res.StatusCode ≠ 201)
    (ha : Answers w h payload res) :
    (makeRequest h payload w).1 = ([], some (.errorf ("error: " ++ res.Body))) :=
  makeRequest_failure ha (not_success_of_ne hs)

/-- Status 400 with body `bad request` gives the message `error: bad request`. -/
theorem error_message_is_prefixed_body_witness :
    ((400 : Nat) ≠ 200 ∧ (400 : Nat) ≠ 201) ∧
    Answers (answering ⟨400, "bad request"⟩) ⟨"token", "https://tana.test/add"⟩
      (setNodeNamePayload "renamed" "NODE1") ⟨400, "bad request"⟩ ∧
    (makeRequest ⟨"token", "https://tana.test/add"⟩ (setNodeNamePayload "renamed" "NODE1")
      (answering ⟨400, "bad request"⟩)).1 = ([], some (.errorf "error: bad request")) :=
  ⟨by decide, ⟨rfl, rfl, rfl⟩,
    error_message_is_prefixed_body ⟨"token", "https://tana.test/add"⟩
      (answering ⟨400, "bad request"⟩) (setNodeNamePayload "renamed" "NODE1")
      ⟨400, "bad request"⟩ (by decide) ⟨rfl, rfl, rfl⟩⟩

/-! ## Success responses -/

theorem equalFold_facts :
    equalFold "name" "name" = true ∧ equalFold "name" "description" = false ∧
    equalFold "description" "description" = true ∧ equalFold "name" "nodeId" = false ∧
    equalFold "description" "nodeId" = false ∧ equalFold "nodeId" "nodeId" = true ∧
    equalFold "children" "children" = true := by
  decide

theorem decodeTanaNode_nodeJson (c cur : TanaNode) :
    decodeTanaNode (nodeJson c) cur = (c, none) := by
  obtain ⟨h1, h2, h3, h4, h5, h6, _⟩ := equalFold_facts
  simp [nodeJson, decodeTanaNode, decodeMembers, TanaNode.setField, storeString, firstError,
    h1, h2, h3, h4, h5, h6]

theorem decodeElems_nodeJson (cs : List TanaNode) (old : List TanaNode) :
    decodeElems (cs.map nodeJson) old = (cs, none) := by
  induction cs generalizing old with
  | nil => rfl
  | cons c cs ih =>
    simp [decodeElems, decodeTanaNode_nodeJson, ih, firstError]

theorem decodeEnvelope_childrenJson (cs : List TanaNode) :
    decodeEnvelope (childrenJson cs) Envelope.zero = (⟨⟨cs, []⟩⟩, none) := by
  have h7 := equalFold_facts.2.2.2.2.2.2
  cases cs with
  | nil =>
    simp [childrenJson, decodeEnvelope, decodeMembers, Envelope.setField, h7, decodeChildren,
      decodeElems, firstError, Envelope.zero]
  | cons c cs =>
    simp [childrenJson, decodeEnvelope, decodeMembers, Envelope.setField, h7, decodeChildren,
      firstError, Envelope.zero]
    have := decodeElems_nodeJson (c :: cs) []
    simp only [List.map_cons] at this
    simp [this]

theorem jsonUnmarshal_childrenJson {body : String} {cs : List TanaNode}
    (hb : parseJSON body = some (childrenJson cs)) :
    jsonUnmarshal body = (⟨⟨cs, []⟩⟩, none) := by
  unfold jsonUnmarshal
  rw [hb]
  exact decodeEnvelope_childrenJson cs

/-! ### Scanning the JSON text of a success response -/

theorem hexVal_hexDigit : ∀ k, k < 16 → hexVal (hexDigit k) = some k := by decide

theorem getu4_control (c : Char) (hc : c.toNat < 0x20) (rest : List Char) :
    getu4 ('0' :: '0' :: hexDigit (c.toNat / 16) :: hexDigit (c.toNat % 16) :: rest)
      = some (c.toNat, rest) := by
  have h0 : hexVal '0' = some 0 := by decide
  have h1 := hexVal_hexDigit (c.toNat / 16) (by omega)
  have h2 := hexVal_hexDigit (c.toNat % 16) (by omega)
  simp only [getu4, h0, h1, h2]
  congr 2
  omega

theorem scanString_escape (s : List Char) :
    ∀ (fuel : Nat) (rest acc : List Char), (escape s).length < fuel →
      scanString fuel (escape s ++ '"' :: rest) acc
        = some (String.mk (acc.reverse ++ s), rest) := by
  induction s with
  | nil =>
    intro fuel rest acc hf
    cases fuel with
    | zero => simp [escape] at hf
    | succ fuel => simp [escape, scanString]
  | cons c s ih =>
    intro fuel rest acc hf
    cases fuel with
    | zero => simp at hf
    | succ fuel =>
      by_cases hq : c = '"'
      · subst hq
        have hlen : (escape s).length < fuel := by
          simp [escape, escapeChar] at hf; omega
        have := ih fuel rest ('"' :: acc) hlen
        simp [escape, escapeChar, scanString, this]
      · by_cases hb : c = '\\'
        · subst hb
          have hlen : (escape s).length < fuel := by
            simp [escape, escapeChar] at hf; omega
          have := ih fuel rest ('\\' :: acc) hlen
          simp [escape, escapeChar, scanString, this]
        · by_cases hc : c.toNat < 0x20
          · have hlen : (escape s).length < fuel := by
              simp [escape, escapeChar, hq, hb, hc] at hf; omega
            have := ih fuel rest (c :: acc) hlen
            have hs : isSurrogate c.toNat = false := by
              simp [isSurrogate]; omega
            simp [escape, escapeChar, hq, hb, hc, scanString, getu4_control c hc, hs,
              Char.ofNat_toNat, this]
          · have hlen : (escape s).length < fuel := by
              simp [escape, escapeChar, hq, hb, hc] at hf; omega
            have := ih fuel rest (c :: acc) hlen
            simp [escape, escapeChar, hq, hb, hc, scanString, this]

theorem scanValue_quote (n f d : Nat) (s : String) (rest : List Char)
    (hn : (escape s.data).length < n) :
    scanValue n (f + 1) d (quote s ++ rest) = some (.str s, rest) := by
  have := scanString_escape s.data n rest [] hn
  simp [quote, scanValue, this]

theorem scanMember_quote (value : List Char → Option (Json × List Char)) (n : Nat)
    (k s : String) (rest : List Char) (v : Json)
    (hn : (escape k.data).length < n)
    (hv : value (quote s ++ rest) = some (v, rest)) :
    scanMember value n (renderMember k s ++ rest) = some ((k, v), rest) := by
  have := scanString_escape k.data n (':' :: (quote s ++ rest)) [] hn
  have hsp : skipSpace (quote s ++ rest) = quote s ++ rest := by
    simp [quote, skipSpace, isSpace]
  simp [renderMember, scanMember]
  simp [quote] at this ⊢
  simp [this, skipSpace, isSpace]
  simp [quote] at hv
  simp [hv]

theorem length_quote (s : String) : (quote s).length = (escape s.data).length + 2 := by
  simp [quote]

theorem length_renderMember (k s : String) :
    (renderMember k s).length = (escape k.data).length + (escape s.data).length + 5 := by
  simp [renderMember, length_quote]; omega

theorem length_renderNode (c : TanaNode) :
    (renderNode c).length =
      (escape c.Name.data).length + (escape c.Description.data).length +
        (escape c.NodeID.data).length + 40 := by
  have h1 : (escape "name".data).length = 4 := by decide
  have h2 : (escape "description".data).length = 11 := by decide
  have h3 : (escape "nodeId".data).length = 6 := by decide
  simp [renderNode, length_renderMember, h1, h2, h3]; omega

theorem scanValue_renderNode (n f d : Nat) (c : TanaNode) (rest : List Char)
    (hd : d + 1 ≤ maxNestingDepth) (hn : (renderNode c).length ≤ n) :
    scanValue n (f + 2) d (renderNode c ++ rest) = some (nodeJson c, rest) := by
  rw [length_renderNode] at hn
  obtain ⟨m, rfl⟩ : ∃ m, n = m + 3 := ⟨n - 3, by omega⟩
  have h1 : (escape "name".data).length = 4 := by decide
  have h2 : (escape "description".data).length = 11 := by decide
  have h3 : (escape "nodeId".data).length = 6 := by decide
  have m1 := scanMember_quote (scanValue (m + 3) (f + 1) (d + 1)) (m + 3) "name" c.Name
    (',' :: (renderMember "description" c.Description ++
      ',' :: (renderMember "nodeId" c.NodeID ++ '\x7d' :: rest))) (.str c.Name)
    (by omega) (scanValue_quote _ _ _ _ _ (by omega))
  have m2 := scanMember_quote (scanValue (m + 3) (f + 1) (d + 1)) (m + 3) "description"
    c.Description (',' :: (renderMember "nodeId" c.NodeID ++ '\x7d' :: rest))
    (.str c.Description) (by omega) (scanValue_quote _ _ _ _ _ (by omega))
  have m3 := scanMember_quote (scanValue (m + 3) (f + 1) (d + 1)) (m + 3) "nodeId"
    c.NodeID ('\x7d' :: rest) (.str c.NodeID) (by omega)
    (scanValue_quote (m + 3) f (d + 1) c.NodeID ('\x7d' :: rest) (by omega))
  have hd2 : ¬ (maxNestingDepth < d + 1) := Nat.not_lt.mpr hd
  simp only [renderMember, quote, List.cons_append, List.append_assoc, List.nil_append,
    List.singleton_append] at m1 m2 m3
  simp [renderNode, renderMember, quote, scanValue, hd2, skipSpace, isSpace, m1, m2, m3,
    scanMembers, nodeJson]

theorem length_renderTail_ge (cs : List TanaNode) : cs.length ≤ (renderTail cs).length := by
  induction cs with
  | nil => simp [renderTail]
  | cons c cs ih => simp [renderTail]; omega

theorem scanElems_renderTail (n f d : Nat) (hd : d + 1 ≤ maxNestingDepth)
    (cs : List TanaNode) :
    ∀ (fuel : Nat) (rest : List Char) (acc : List Json),
      cs.length < fuel → (renderTail cs).length ≤ n →
      scanElems (scanValue n (f + 2) d) fuel (renderTail cs ++ ']' :: rest) acc
        = some (acc.reverse ++ cs.map nodeJson, rest) := by
  induction cs with
  | nil =>
    intro fuel rest acc hf _
    cases fuel with
    | zero => simp at hf
    | succ fuel => simp [renderTail, scanElems, skipSpace, isSpace]
  | cons c cs ih =>
    intro fuel rest acc hf hn
    cases fuel with
    | zero => simp at hf
    | succ fuel =>
      have hlen : (renderTail (c :: cs)).length =
          1 + (renderNode c).length + (renderTail cs).length := by
        simp [renderTail]; omega
      have hnode := scanValue_renderNode n f d c (renderTail cs ++ ']' :: rest) hd (by omega)
      have htail := ih fuel rest (nodeJson c :: acc) (by simpa using hf) (by omega)
      simp only [renderNode, List.cons_append, List.append_assoc, List.nil_append] at hnode
      simp [renderTail, scanElems, skipSpace, isSpace]
      rw [hnode]
      simp [htail]

theorem scanValue_renderNodes (n f d : Nat) (hd : d + 2 ≤ maxNestingDepth)
    (cs : List TanaNode) (rest : List Char) (hn : (renderNodes cs).length < n) :
    scanValue n (f + 3) d ('[' :: (renderNodes cs ++ ']' :: rest))
      = some (.arr (cs.map nodeJson), rest) := by
  have hd1 : ¬ (maxNestingDepth < d + 1) := by omega
  cases cs with
  | nil => simp [renderNodes, scanValue, skipSpace, isSpace, hd1]
  | cons c cs =>
    have hlen : (renderNodes (c :: cs)).length =
        (renderNode c).length + (renderTail cs).length := by
      simp [renderNodes]
    have hnode := scanValue_renderNode n f (d + 1) c (renderTail cs ++ ']' :: rest)
      (by omega) (by omega)
    have hge := length_renderTail_ge cs
    have htail := scanElems_renderTail n f (d + 1) (by omega) cs n rest [nodeJson c]
      (by omega) (by omega)
    simp only [renderNode, List.cons_append, List.append_assoc, List.nil_append] at hnode
    simp only [renderNodes, List.append_assoc]
    simp only [scanValue, hd1]
    simp [renderNode, skipSpace, isSpace]
    rw [hnode]
    simp [htail]

theorem parseJSON_renderChildren (cs : List TanaNode) :
    parseJSON (renderChildren cs) = some (childrenJson cs) := by
  have hk : (escape "children".data).length = 8 := by decide
  have hlen : (renderChildren cs).length = (renderNodes cs).length + 15 := by
    simp [renderChildren, String.length, length_quote, hk]
    omega
  obtain ⟨m, hm⟩ : ∃ m, (renderChildren cs).length + 1 = m + 4 :=
    ⟨(renderChildren cs).length - 3, by omega⟩
  have harr := scanValue_renderNodes (m + 4) m 1 (by decide) cs ['\x7d'] (by omega)
  have hkey := scanString_escape "children".data (m + 4)
    (':' :: '[' :: (renderNodes cs ++ [']', '\x7d'])) [] (by omega)
  unfold parseJSON
  rw [hm]
  simp only [List.reverse_nil, List.nil_append] at hkey
  have hdata : (renderChildren cs).data =
      '\x7b' :: '"' :: (escape "children".data ++
        '"' :: ':' :: '[' :: (renderNodes cs ++ [']', '\x7d'])) := by
    simp [renderChildren, quote]
  rw [hdata]
  have hsp : skipSpace ('\x7b' :: '"' :: (escape "children".data ++
        '"' :: ':' :: '[' :: (renderNodes cs ++ [']', '\x7d'])))
      = '\x7b' :: '"' :: (escape "children".data ++
        '"' :: ':' :: '[' :: (renderNodes cs ++ [']', '\x7d'])) := by
    simp [skipSpace, isSpace]
  rw [hsp, scanValue]
  simp [skipSpace, isSpace, maxNestingDepth, scanMember, hkey, harr, scanMembers,
    childrenJson]

theorem makeRequest_success {w : World} {h : TanaAPIHelper} {payload : Payload}
    {res : Response} {env : Envelope} (ha : Answers w h payload res) (hs : IsSuccess res)
    (hd : jsonUnmarshal res.Body = (env, none)) :
    (makeRequest h payload w).1 = (env.Children.elems, none) := by
  rw [makeRequest_of_answers ha]
  simp [hs, hd]

/-- Claim C3. When the server's response has status 200 or 201 and its body is a
JSON text for the object with the one key `children` holding the records
`c1, ..., cn` (each an object with the keys `name`, `description` and `nodeId`),
`makeRequest` returns no error and exactly the list `c1, ..., cn`. Every list of
records has such a text, `renderChildren`. -/
theorem makeRequest_returns_children :
    (∀ (h : TanaAPIHelper) (w : World) (payload : Payload) (res : Response)
        (cs : List TanaNode),
      res.StatusCode = 200 ∨ res.StatusCode = 201 →
      Answers w h payload res →
      parseJSON res.Body = some (childrenJson cs) →
      (makeRequest h payload w).1 = (cs, none)) ∧
    (∀ cs : List TanaNode, parseJSON (renderChildren cs) = some (childrenJson cs)) :=
  ⟨fun _ _ _ _ _ hs ha hb => makeRequest_success ha hs (jsonUnmarshal_childrenJson hb),
    parseJSON_renderChildren⟩

/-- Status 201 with a body of two records, spaced out and with an escape, returns
the two records in order. -/
theorem makeRequest_returns_children_witness :
    ((201 : Nat) = 200 ∨ (201 : Nat) = 201) ∧
    Answers
      (answering ⟨201, " \x7b \"children\" : [ \x7b\"name\":\"A\",\"description\":\"first\\n\",\"nodeId\":\"id1\"\x7d, \x7b\"name\":\"B\",\"description\":\"\",\"nodeId\":\"id2\"\x7d ] \x7d\n"⟩)
      ⟨"token", "https://tana.test/add"⟩ (setNodeNamePayload "A" "id1")
      ⟨201, " \x7b \"children\" : [ \x7b\"name\":\"A\",\"description\":\"first\\n\",\"nodeId\":\"id1\"\x7d, \x7b\"name\":\"B\",\"description\":\"\",\"nodeId\":\"id2\"\x7d ] \x7d\n"⟩ ∧
    parseJSON " \x7b \"children\" : [ \x7b\"name\":\"A\",\"description\":\"first\\n\",\"nodeId\":\"id1\"\x7d, \x7b\"name\":\"B\",\"description\":\"\",\"nodeId\":\"id2\"\x7d ] \x7d\n"
      = some (childrenJson [⟨"A", "first\n", "id1"⟩, ⟨"B", "", "id2"⟩]) ∧
    (makeRequest ⟨"token", "https://tana.test/add"⟩ (setNodeNamePayload "A" "id1")
      (answering ⟨201, " \x7b \"children\" : [ \x7b\"name\":\"A\",\"description\":\"first\\n\",\"nodeId\":\"id1\"\x7d, \x7b\"name\":\"B\",\"description\":\"\",\"nodeId\":\"id2\"\x7d ] \x7d\n"⟩)).1
      = ([⟨"A", "first\n", "id1"⟩, ⟨"B", "", "id2"⟩], none) :=
  ⟨by decide, ⟨rfl, rfl, rfl⟩, by rfl,
    makeRequest_returns_children.1 ⟨"token", "https://tana.test/add"⟩ _
      (setNodeNamePayload "A" "id1")
      ⟨201, " \x7b \"children\" : [ \x7b\"name\":\"A\",\"description\":\"first\\n\",\"nodeId\":\"id1\"\x7d, \x7b\"name\":\"B\",\"description\":\"\",\"nodeId\":\"id2\"\x7d ] \x7d\n"⟩
      [⟨"A", "first\n", "id1"⟩, ⟨"B", "", "id2"⟩] (by decide) ⟨rfl, rfl, rfl⟩ (by rfl)⟩


theorem makeRequest_log (h : TanaAPIHelper) (payload : Payload) (w : World) :
    (makeRequest h payload w).2.log =
      if w.marshalErr payload = none ∧ w.requestErr "POST" h.Endpoint = none then
        w.log ++ [issuedRequest h payload]
      else w.log := by
  unfold makeRequest
  cases h1 : w.marshalErr payload with
  | some e => simp
  | none =>
    cases h2 : w.requestErr "POST" h.Endpoint with
    | some e => simp
    | none =>
      simp only [header_of_request, and_self, if_true]
      cases w.roundTrip w.log
          { Method := "POST", URL := h.Endpoint,
            Header := [("Authorization", "Bearer " ++ h.Token),
              ("Content-Type", "application/json")],
            Body := payload } with
      | error e => rfl
      | ok res =>
        simp only
        split
        · split <;> rfl
        · rfl

theorem createFieldDefinitions_world (h : TanaAPIHelper) (m : Memory)
    (fields : List StoredPlainNode) (w : World) :
    (createFieldDefinitions h m fields w).world =
      (makeRequest h (fieldDefinitionsPayload m fields) w).2 := by
  rw [createFieldDefinitions_eq]
  split <;> rfl

theorem createFieldDefinitions_state (h : TanaAPIHelper) (m : Memory)
    (fields : List StoredPlainNode) (w : World) :
    (createFieldDefinitions h m fields w).memory = (tagFields m fields).1 ∧
    (createFieldDefinitions h m fields w).fields = (tagFields m fields).2 := by
  rw [createFieldDefinitions_eq]
  split <;> exact ⟨rfl, rfl⟩

theorem callerView_eq (h : TanaAPIHelper) (m : Memory) (fields : List StoredPlainNode)
    (w : World) : callerView (createFieldDefinitions h m fields w) = sentNodes m fields := by
  unfold callerView sentNodes
  rw [(createFieldDefinitions_state h m fields w).1, (createFieldDefinitions_state h m fields w).2]

theorem tagAll_shape (fs : List StoredPlainNode) : ∀ m,
    (tagAll m fs).2.map (fun f => (f.Name, f.Description, f.Supertags.len))
      = fs.map (fun f => (f.Name, f.Description, f.Supertags.len + 1)) := by
  induction fs with
  | nil => intro m; simp [tagAll]
  | cons f fs ih =>
    intro m
    simp [tagAll, ih, (appendTag_last m f.Supertags ⟨attrDefTemplateId⟩).1]

theorem sentNodes_shape (m : Memory) (fields : List StoredPlainNode) :
    (sentNodes m fields).map (fun n => (n.Name, n.Description, n.Supertags.length)) =
      fields.map (fun f => (f.Name, f.Description, (f.Supertags.read m).length + 1)) := by
  have h := tagAll_shape fields m
  unfold sentNodes
  rw [tagFields_eq_tagAll]
  simp only [List.map_map, Function.comp_def, StoredPlainNode.load, read_length] at h ⊢
  exact h

theorem sentNodes_last {m : Memory} {fields : List StoredPlainNode}
    (ha : Allocated m fields) :
    ∀ n ∈ sentNodes m fields, n.Supertags.getLast? = some ⟨"SYS_T02"⟩ := by
  intro n hn
  unfold sentNodes at hn
  rw [tagFields_eq_tagAll] at hn
  obtain ⟨g, hg, rfl⟩ := List.mem_map.mp hn
  exact tagAll_last fields m ha g hg

theorem sentNodes_separate {m : Memory} {fields : List StoredPlainNode}
    (hsep : Separate m fields) :
    sentNodes m fields = fields.map (fun f =>
      ({ Name := f.Name, Description := f.Description,
         Supertags := f.Supertags.read m ++ [⟨"SYS_T02"⟩] } : APIPlainNode)) := by
  unfold sentNodes
  rw [(tagFields_separate hsep).1]
  rfl

theorem sentNodes_twice {m : Memory} {fields : List StoredPlainNode}
    (hsep : Separate m fields) :
    sentNodes (tagFields m fields).1 (tagFields m fields).2 = fields.map (fun f =>
      ({ Name := f.Name, Description := f.Description,
         Supertags := f.Supertags.read m ++ [⟨"SYS_T02"⟩, ⟨"SYS_T02"⟩] } : APIPlainNode)) := by
  rw [sentNodes_separate (tagFields_separate hsep).2]
  have h1 := sentNodes_separate hsep
  unfold sentNodes at h1
  have h2 : (tagFields m fields).2.map (fun f =>
      ({ Name := f.Name, Description := f.Description,
         Supertags := f.Supertags.read (tagFields m fields).1 ++ [⟨"SYS_T02"⟩] } : APIPlainNode))
      = ((tagFields m fields).2.map (StoredPlainNode.load (tagFields m fields).1)).map
          withAttrDef := by
    simp [List.map_map, Function.comp_def, StoredPlainNode.load, withAttrDef]
  rw [h2, h1]
  simp [List.map_map, Function.comp_def, withAttrDef]

theorem createTagDefinition_world (h : TanaAPIHelper) (node : APIPlainNode) (w : World) :
    (createTagDefinition h node w).2 = (makeRequest h (tagDefinitionPayload node) w).2 := by
  rw [createTagDefinition_eq]
  split
  · rfl
  · split <;> rfl

/-! ## Schema definitions -/

/-- Claim C5. `createTagDefinition` hands `makeRequest` a payload whose
`targetNodeId` is `SCHEMA` and whose `nodes` hold exactly one node: the
descriptor with `SYS_T01` appended once after the caller's tags, name and
description unchanged; this payload is the body of the one request issued. When
the server answers with status 200 or 201 and at least one child, the call
returns the `NodeID` of the first child and no error. -/
theorem createTagDefinition_payload_and_id (h : TanaAPIHelper) (node : APIPlainNode)
    (w : World) :
    (tagDefinitionPayload node =
      [("targetNodeId", .str "SCHEMA"),
       ("nodes", .plainNodes
          [⟨node.Name, node.Description, node.Supertags ++ [⟨"SYS_T01"⟩]⟩])]) ∧
    ((node.Supertags ++ [(⟨"SYS_T01"⟩ : SuperTag)]).length = node.Supertags.length + 1) ∧
    ((createTagDefinition h node w).2.log =
      if w.marshalErr (tagDefinitionPayload node) = none ∧
          w.requestErr "POST" h.Endpoint = none then
        w.log ++ [issuedRequest h (tagDefinitionPayload node)]
      else w.log) ∧
    (∀ (res : Response) (c : TanaNode) (cs : List TanaNode),
      res.StatusCode = 200 ∨ res.StatusCode = 201 →
      Answers w h (tagDefinitionPayload node) res →
      parseJSON res.Body = some (childrenJson (c :: cs)) →
      (createTagDefinition h node w).1 = .ret c.NodeID none) := by
  refine ⟨rfl, by simp, ?_, ?_⟩
  · rw [createTagDefinition_world, makeRequest_log]
  · intro res c cs hs ha hb
    have hm := makeRequest_success ha hs (jsonUnmarshal_childrenJson hb)
    rw [createTagDefinition_eq, hm]

/-- A descriptor with one tag of its own, answered with one child: the call
returns that child's identifier. -/
theorem createTagDefinition_payload_and_id_witness :
    ((201 : Nat) = 200 ∨ (201 : Nat) = 201) ∧
    Answers (answering ⟨201, oneTagBody⟩) ⟨"token", "https://tana.test/add"⟩
      (tagDefinitionPayload ⟨"book", "a book", [⟨"base"⟩]⟩) ⟨201, oneTagBody⟩ ∧
    parseJSON oneTagBody = some (childrenJson [⟨"book", "a book", "tag7"⟩]) ∧
    (createTagDefinition ⟨"token", "https://tana.test/add"⟩ ⟨"book", "a book", [⟨"base"⟩]⟩
      (answering ⟨201, oneTagBody⟩)).1 = .ret "tag7" none :=
  ⟨by decide, ⟨rfl, rfl, rfl⟩, by rfl,
    (createTagDefinition_payload_and_id ⟨"token", "https://tana.test/add"⟩
      ⟨"book", "a book", [⟨"base"⟩]⟩ (answering ⟨201, oneTagBody⟩)).2.2.2 ⟨201, oneTagBody⟩
      ⟨"book", "a book", "tag7"⟩ [] (by decide) ⟨rfl, rfl, rfl⟩ (by rfl)⟩


theorem firstChild_success {w : World} {h : TanaAPIHelper} {payload : Payload}
    {res : Response} {env : Envelope} (ha : Answers w h payload res) (hs : IsSuccess res)
    (hd : jsonUnmarshal res.Body = (env, none)) :
    (firstChild (makeRequest h payload w)).1 =
      match env.Children.elems with
      | [] => .panic (.indexOutOfRange 0 0)
      | n :: _ => .ret n none := by
  unfold firstChild
  rw [makeRequest_success ha hs hd]
  simp only
  split <;> rfl

theorem firstChild_decode_error {w : World} {h : TanaAPIHelper} {payload : Payload}
    {res : Response} {e : GoError} (ha : Answers w h payload res) (hs : IsSuccess res)
    (hd : (jsonUnmarshal res.Body).2 = some e) :
    (makeRequest h payload w).1 = ([], some e) ∧
    (firstChild (makeRequest h payload w)).1 = .ret TanaNode.zero (some e) := by
  have hm : (makeRequest h payload w).1 = ([], some e) := by
    rw [makeRequest_of_answers ha]
    simp [hs, hd]
  refine ⟨hm, ?_⟩
  unfold firstChild
  rw [hm]

/-! ## Single-node operations -/

/-- Claim C6. When the server answers with status 200 or 201 and the decoded
children list is non-empty, `createNode`, `setNodeName` and `addField` each return
the first child and no error. In particular, on status 200 with the body
`\x7b"children":[\x7b"name":"N","description":"D","nodeId":"X"\x7d]\x7d`, `createNode`
returns the record with `Name` `N`, `Description` `D` and `NodeID` `X`. -/
theorem single_node_operations_return_first_child :
    (∀ (h : TanaAPIHelper) (w : World) (res : Response) (env : Envelope) (c : TanaNode)
        (rest : List TanaNode),
      res.StatusCode = 200 ∨ res.StatusCode = 201 →
      jsonUnmarshal res.Body = (env, none) →
      env.Children.elems = c :: rest →
      (∀ node t, Answers w h (createNodePayload node t) res →
        (createNode h node t w).1 = .ret c none) ∧
      (∀ newName t, Answers w h (setNodeNamePayload newName t) res →
        (setNodeName h newName t w).1 = .ret c none) ∧
      (∀ field t, Answers w h (addFieldPayload field t) res →
        (addField h field t w).1 = .ret c none)) ∧
    (∀ (h : TanaAPIHelper) (w : World) (node : APINode) (t : String),
      Answers w h (createNodePayload node t)
        ⟨200, "\x7b\"children\":[\x7b\"name\":\"N\",\"description\":\"D\",\"nodeId\":\"X\"\x7d]\x7d"⟩ →
      (createNode h node t w).1 =
        .ret { Name := "N", Description := "D", NodeID := "X" } none) := by
  constructor
  · intro h w res env c rest hs hd hc
    refine ⟨?_, ?_, ?_⟩
    · intro node t ha
      rw [createNode_eq, firstChild_success ha hs hd, hc]
    · intro newName t ha
      rw [setNodeName_eq, firstChild_success ha hs hd, hc]
    · intro field t ha
      rw [addField_eq, firstChild_success ha hs hd, hc]
  · intro h w node t ha
    have hd : jsonUnmarshal
        (Response.mk 200 "\x7b\"children\":[\x7b\"name\":\"N\",\"description\":\"D\",\"nodeId\":\"X\"\x7d]\x7d").Body
        = (⟨⟨[⟨"N", "D", "X"⟩], []⟩⟩, none) := by
      decide
    rw [createNode_eq, firstChild_success ha (Or.inl rfl) hd]

/-- The spec's example: `createNode` against a server answering status 200 with one
child `N`, `D`, `X`. -/
theorem single_node_operations_return_first_child_witness :
    Answers
      (answering ⟨200, "\x7b\"children\":[\x7b\"name\":\"N\",\"description\":\"D\",\"nodeId\":\"X\"\x7d]\x7d"⟩)
      ⟨"token", "https://tana.test/add"⟩ (createNodePayload ⟨"n", "d", [⟨"tag1"⟩]⟩ "INBOX")
      ⟨200, "\x7b\"children\":[\x7b\"name\":\"N\",\"description\":\"D\",\"nodeId\":\"X\"\x7d]\x7d"⟩ ∧
    (createNode ⟨"token", "https://tana.test/add"⟩ ⟨"n", "d", [⟨"tag1"⟩]⟩ "INBOX"
      (answering ⟨200, "\x7b\"children\":[\x7b\"name\":\"N\",\"description\":\"D\",\"nodeId\":\"X\"\x7d]\x7d"⟩)).1
      = .ret ⟨"N", "D", "X"⟩ none :=
  ⟨⟨rfl, rfl, rfl⟩,
    single_node_operations_return_first_child.2 ⟨"token", "https://tana.test/add"⟩ _
      ⟨"n", "d", [⟨"tag1"⟩]⟩ "INBOX" ⟨rfl, rfl, rfl⟩⟩

/-- Claim C7. When the server answers with status 200 or 201 and decoding the body
fails, `makeRequest` returns the nil list with the decoding error, and every
operation returns its zero result with that error. Decoding fails for the empty
body, for a body that is not JSON, and for a `children` value of another type
than array; when it fails after some children were stored, the stored children
are not returned. -/
theorem decode_failure_is_an_error :
    (∀ (h : TanaAPIHelper) (w : World) (res : Response) (e : GoError),
      res.StatusCode = 200 ∨ res.StatusCode = 201 →
      (jsonUnmarshal res.Body).2 = some e →
      (∀ payload, Answers w h payload res →
        (makeRequest h payload w).1 = ([], some e)) ∧
      (∀ m fields, Answers w h (fieldDefinitionsPayload m fields) res →
        (createFieldDefinitions h m fields w).result = [] ∧
        (createFieldDefinitions h m fields w).err = some e) ∧
      (∀ node, Answers w h (tagDefinitionPayload node) res →
        (createTagDefinition h node w).1 = .ret "" (some e)) ∧
      (∀ node t, Answers w h (createNodePayload node t) res →
        (createNode h node t w).1 = .ret TanaNode.zero (some e)) ∧
      (∀ newName t, Answers w h (setNodeNamePayload newName t) res →
        (setNodeName h newName t w).1 = .ret TanaNode.zero (some e)) ∧
      (∀ field t, Answers w h (addFieldPayload field t) res →
        (addField h field t w).1 = .ret TanaNode.zero (some e))) ∧
    (jsonUnmarshal "").2 = some .syntaxError ∧
    (jsonUnmarshal "not json").2 = some .syntaxError ∧
    (jsonUnmarshal "\x7b\"children\":\"none\"\x7d").2
      = some (.unmarshalType "string" .tanaNodeSlice) ∧
    (jsonUnmarshal "\x7b\"children\":\x7b\x7d\x7d").2
      = some (.unmarshalType "object" .tanaNodeSlice) ∧
    jsonUnmarshal "\x7b\"children\":[\x7b\"name\":\"a\"\x7d,5]\x7d"
      = (⟨⟨[⟨"a", "", ""⟩, ⟨"", "", ""⟩], []⟩⟩, some (.unmarshalType "number" .tanaNode)) := by
  refine ⟨?_, by decide, by decide, by decide, by decide, by decide⟩
  intro h w res e hs hd
  refine ⟨?_, ?_, ?_, ?_, ?_, ?_⟩
  · intro payload ha
    exact (firstChild_decode_error ha hs hd).1
  · intro m fields ha
    have hm := (firstChild_decode_error ha hs hd).1
    constructor
    · rw [createFieldDefinitions_eq, hm]
    · rw [createFieldDefinitions_eq, hm]
  · intro node ha
    rw [createTagDefinition_eq, (firstChild_decode_error ha hs hd).1]
  · intro node t ha
    rw [createNode_eq]; exact (firstChild_decode_error ha hs hd).2
  · intro newName t ha
    rw [setNodeName_eq]; exact (firstChild_decode_error ha hs hd).2
  · intro field t ha
    rw [addField_eq]; exact (firstChild_decode_error ha hs hd).2

/-- Status 200 with a body whose second child is a number: two children were
stored when decoding failed, and `makeRequest` returns none of them. -/
theorem decode_failure_is_an_error_witness :
    ((200 : Nat) = 200 ∨ (200 : Nat) = 201) ∧
    (jsonUnmarshal "\x7b\"children\":[\x7b\"name\":\"a\"\x7d,5]\x7d").2
      = some (.unmarshalType "number" .tanaNode) ∧
    Answers (answering ⟨200, "\x7b\"children\":[\x7b\"name\":\"a\"\x7d,5]\x7d"⟩)
      ⟨"token", "https://tana.test/add"⟩ (addFieldPayload ⟨"Year", "when"⟩ "NODE1")
      ⟨200, "\x7b\"children\":[\x7b\"name\":\"a\"\x7d,5]\x7d"⟩ ∧
    (makeRequest ⟨"token", "https://tana.test/add"⟩ (addFieldPayload ⟨"Year", "when"⟩ "NODE1")
      (answering ⟨200, "\x7b\"children\":[\x7b\"name\":\"a\"\x7d,5]\x7d"⟩)).1
      = ([], some (.unmarshalType "number" .tanaNode)) :=
  ⟨by decide, by decide, ⟨rfl, rfl, rfl⟩,
    (decode_failure_is_an_error.1 ⟨"token", "https://tana.test/add"⟩ _
      ⟨200, "\x7b\"children\":[\x7b\"name\":\"a\"\x7d,5]\x7d"⟩ _ (by decide) (by decide)).1
      (addFieldPayload ⟨"Year", "when"⟩ "NODE1") ⟨rfl, rfl, rfl⟩⟩


/-! ## Configuration and the request issued -/

/-- Claim C8. `NewTanaAPIHelper t e` keeps the token `t`; its endpoint is `e`, or
the package's default `endpoint` when `e` is empty. For every helper,
`makeRequest` issues at most one request, and that request is a `POST` to the
helper's `Endpoint` carrying the header `Authorization: Bearer ` followed by the
helper's token. -/
theorem helper_configuration_and_request (t e : String) :
    (NewTanaAPIHelper t e).Token = t ∧
    (NewTanaAPIHelper t e).Endpoint = (if e = "" then endpoint else e) ∧
    (∀ (h : TanaAPIHelper) (payload : Payload) (w : World),
      ((makeRequest h payload w).2.log =
        if w.marshalErr payload = none ∧ w.requestErr "POST" h.Endpoint = none then
          w.log ++ [issuedRequest h payload]
        else w.log) ∧
      (issuedRequest h payload).Method = "POST" ∧
      (issuedRequest h payload).URL = h.Endpoint ∧
      (issuedRequest h payload).Header.lookup "Authorization" = some ("Bearer " ++ h.Token) ∧
      (issuedRequest h payload).Body = payload) ∧
    (∀ (payload : Payload) (w : World),
      w.marshalErr payload = none ∧
        w.requestErr "POST" (if e = "" then endpoint else e) = none →
      ∃ req, (makeRequest (NewTanaAPIHelper t e) payload w).2.log = w.log ++ [req] ∧
        req.URL = (if e = "" then endpoint else e) ∧
        req.Header.lookup "Authorization" = some ("Bearer " ++ t)) := by
  have hE : (NewTanaAPIHelper t e).Endpoint = (if e = "" then endpoint else e) := by
    unfold NewTanaAPIHelper
    by_cases he : e = "" <;> simp [he]
  have hT : (NewTanaAPIHelper t e).Token = t := by
    unfold NewTanaAPIHelper
    by_cases he : e = "" <;> simp [he]
  refine ⟨hT, hE, ?_, ?_⟩
  · intro h payload w
    refine ⟨makeRequest_log h payload w, rfl, rfl, ?_, rfl⟩
    simp [issuedRequest, List.lookup]
  · intro payload w hw
    refine ⟨issuedRequest (NewTanaAPIHelper t e) payload, ?_, ?_, ?_⟩
    · rw [makeRequest_log, hE, if_pos hw]
    · exact hE
    · simp [issuedRequest, List.lookup, hT]

/-- A helper built without an endpoint sends to the default endpoint, and one
built with an endpoint sends there. -/
theorem helper_configuration_and_request_witness :
    ((answering ⟨200, ""⟩).marshalErr (setNodeNamePayload "x" "N1") = none ∧
      (answering ⟨200, ""⟩).requestErr "POST"
        (if "" = "" then endpoint else "") = none) ∧
    ∃ req, (makeRequest (NewTanaAPIHelper "secret" "") (setNodeNamePayload "x" "N1")
        (answering ⟨200, ""⟩)).2.log = (answering ⟨200, ""⟩).log ++ [req] ∧
      req.URL = (if "" = "" then endpoint else "") ∧
      req.Header.lookup "Authorization" = some ("Bearer " ++ "secret") :=
  ⟨⟨rfl, rfl⟩,
    (helper_configuration_and_request "secret" "").2.2.2 (setNodeNamePayload "x" "N1")
      (answering ⟨200, ""⟩) ⟨rfl, rfl⟩⟩

/-! ## Zero children -/

/-- Claim C9. `createTagDefinition`, `createNode`, `setNodeName` and `addField` take
element 0 of the children without a length check. When the server answers with
status 200 or 201 and the body decodes without error, `makeRequest` returns the
decoded children and no error, and each of the four operations panics with an
index out of range exactly when the decoded children list is empty. The bodies
`\x7b\x7d`, `\x7b"children":[]\x7d` and `\x7b"children":null\x7d` decode without error
to zero children. -/
theorem single_node_operations_index_unchecked :
    (∀ (h : TanaAPIHelper) (w : World) (res : Response) (env : Envelope),
      res.StatusCode = 200 ∨ res.StatusCode = 201 →
      jsonUnmarshal res.Body = (env, none) →
      (∀ payload, Answers w h payload res →
        (makeRequest h payload w).1 = (env.Children.elems, none)) ∧
      (∀ node, Answers w h (tagDefinitionPayload node) res →
        ((createTagDefinition h node w).1 = .panic (.indexOutOfRange 0 0) ↔
          env.Children.elems = []) ∧
        ((∃ id, (createTagDefinition h node w).1 = .ret id none) ↔
          env.Children.elems ≠ [])) ∧
      (∀ node t, Answers w h (createNodePayload node t) res →
        ((createNode h node t w).1 = .panic (.indexOutOfRange 0 0) ↔
          env.Children.elems = []) ∧
        ((∃ n, (createNode h node t w).1 = .ret n none) ↔ env.Children.elems ≠ [])) ∧
      (∀ newName t, Answers w h (setNodeNamePayload newName t) res →
        ((setNodeName h newName t w).1 = .panic (.indexOutOfRange 0 0) ↔
          env.Children.elems = []) ∧
        ((∃ n, (setNodeName h newName t w).1 = .ret n none) ↔ env.Children.elems ≠ [])) ∧
      (∀ field t, Answers w h (addFieldPayload field t) res →
        ((addField h field t w).1 = .panic (.indexOutOfRange 0 0) ↔
          env.Children.elems = []) ∧
        ((∃ n, (addField h field t w).1 = .ret n none) ↔ env.Children.elems ≠ []))) ∧
    jsonUnmarshal "\x7b\x7d" = (⟨⟨[], []⟩⟩, none) ∧
    jsonUnmarshal "\x7b\"children\":[]\x7d" = (⟨⟨[], []⟩⟩, none) ∧
    jsonUnmarshal "\x7b\"children\":null\x7d" = (⟨⟨[], []⟩⟩, none) := by
  refine ⟨?_, by decide, by decide, by decide⟩
  intro h w res env hs hd
  have key : ∀ payload, Answers w h payload res →
      ((firstChild (makeRequest h payload w)).1 = .panic (.indexOutOfRange 0 0) ↔
        env.Children.elems = []) ∧
      ((∃ n, (firstChild (makeRequest h payload w)).1 = .ret n none) ↔
        env.Children.elems ≠ []) := by
    intro payload ha
    rw [firstChild_success ha hs hd]
    cases env.Children.elems with
    | nil => simp
    | cons c cs => simp
  refine ⟨?_, ?_, ?_, ?_, ?_⟩
  · intro payload ha
    exact makeRequest_success ha hs hd
  · intro node ha
    rw [createTagDefinition_eq, makeRequest_success ha hs hd]
    cases env.Children.elems with
    | nil => simp
    | cons c cs => simp
  · intro node t ha
    rw [createNode_eq]; exact key _ ha
  · intro newName t ha
    rw [setNodeName_eq]; exact key _ ha
  · intro field t ha
    rw [addField_eq]; exact key _ ha

/-- Status 200 with the body `\x7b\x7d`: `makeRequest` returns no children and no
error, and `createNode` panics. -/
theorem single_node_operations_index_unchecked_witness :
    ((200 : Nat) = 200 ∨ (200 : Nat) = 201) ∧
    jsonUnmarshal "\x7b\x7d" = (⟨⟨[], []⟩⟩, none) ∧
    Answers (answering ⟨200, "\x7b\x7d"⟩) ⟨"token", "https://tana.test/add"⟩
      (createNodePayload ⟨"n", "d", []⟩ "INBOX") ⟨200, "\x7b\x7d"⟩ ∧
    (makeRequest ⟨"token", "https://tana.test/add"⟩ (createNodePayload ⟨"n", "d", []⟩ "INBOX")
      (answering ⟨200, "\x7b\x7d"⟩)).1 = ([], none) ∧
    (createNode ⟨"token", "https://tana.test/add"⟩ ⟨"n", "d", []⟩ "INBOX"
      (answering ⟨200, "\x7b\x7d"⟩)).1 = .panic (.indexOutOfRange 0 0) :=
  ⟨by decide, by decide, ⟨rfl, rfl, rfl⟩,
    (single_node_operations_index_unchecked.1 ⟨"token", "https://tana.test/add"⟩
      (answering ⟨200, "\x7b\x7d"⟩) ⟨200, "\x7b\x7d"⟩ ⟨⟨[], []⟩⟩ (by decide) (by decide)).1
      (createNodePayload ⟨"n", "d", []⟩ "INBOX") ⟨rfl, rfl, rfl⟩,
    by decide⟩

/-! ## The caller's field list -/

end Tana
